import Mathlib

/-!
Verification model of the UiAutomator2 driver (src/lib/driver.ts).

The TypeScript class AndroidUiautomator2Driver is embedded shallowly:
driver/bridge state is an explicit record, each async method becomes a
state-passing function in a step monad that keeps the mutated state on
failure (matching JS exception semantics, where the object survives a
throw), and collaborator calls (ADB, the on-device server, helper
libraries) are modelled by an environment record that fixes each
collaborator call's outcome.  A trace of performed external calls is
accumulated in the state so that ordering facts (what happened before a
failure) are provable.
-/

set_option maxHeartbeats 1000000

/-- External calls performed by the driver, in the order the source makes
them.  Used as a trace of side effects. -/
inductive Event
  | baseCreateSession
  | configureApp
  | checkAppExists
  | getDeviceInfoFromCaps
  | createADB
  | getApiLevel
  | setHiddenApiPolicy
  | toggleGPSLocationProvider
  | getLaunchInfo
  | initDevice
  | checkPortStatus (port : Nat)
  | findFreePortScan
  | forwardPort (localPort devicePort : Nat)
  | installServerApk
  | addToDeviceIdleWhitelist
  | isAnimationOn
  | setAnimationState (enabled : Bool)
  | uninstallOtherPackages
  | installOtherApks
  | isAppInstalled
  | checkApkCert
  | signApp
  | uninstallApk
  | installApk
  | resetApp
  | serverStartSession
  | getDeviceInfoFromUia2
  | unlock
  | startChromeSession
  | androidCoverageStart
  | processExists
  | startApp
  | setOrientation
  | setContext
  | getDeviceDetails
  | mjpegStreamStart
  | removeAllSessionWebSocketHandlers
  | stopChromedriverProxies
  | serverDeleteSession
  | stopRecordingScreen
  | isMediaProjectionRecordingRunning
  | stopMediaProjectionRecording
  | stopScreenStreaming
  | endAndroidCoverage
  | broadcast
  | forceStop
  | stopLogcat
  | removePortForward (port : Nat)
  | setDefaultHiddenApiPolicy
  | killEmulator
  | mjpegStreamStop
  | baseDeleteSession

/-- Injective numeric encoding of an event: constructor index plus the
numeric and boolean arguments.  Used for a hand-rolled equality test. -/
def Event.enc : Event → Nat × Nat × Nat × Bool
  | .baseCreateSession => (0, 0, 0, false)
  | .configureApp => (1, 0, 0, false)
  | .checkAppExists => (2, 0, 0, false)
  | .getDeviceInfoFromCaps => (3, 0, 0, false)
  | .createADB => (4, 0, 0, false)
  | .getApiLevel => (5, 0, 0, false)
  | .setHiddenApiPolicy => (6, 0, 0, false)
  | .toggleGPSLocationProvider => (7, 0, 0, false)
  | .getLaunchInfo => (8, 0, 0, false)
  | .initDevice => (9, 0, 0, false)
  | .checkPortStatus p => (10, p, 0, false)
  | .findFreePortScan => (11, 0, 0, false)
  | .forwardPort l d => (12, l, d, false)
  | .installServerApk => (13, 0, 0, false)
  | .addToDeviceIdleWhitelist => (14, 0, 0, false)
  | .isAnimationOn => (15, 0, 0, false)
  | .setAnimationState b => (16, 0, 0, b)
  | .uninstallOtherPackages => (17, 0, 0, false)
  | .installOtherApks => (18, 0, 0, false)
  | .isAppInstalled => (19, 0, 0, false)
  | .checkApkCert => (20, 0, 0, false)
  | .signApp => (21, 0, 0, false)
  | .uninstallApk => (22, 0, 0, false)
  | .installApk => (23, 0, 0, false)
  | .resetApp => (24, 0, 0, false)
  | .serverStartSession => (25, 0, 0, false)
  | .getDeviceInfoFromUia2 => (26, 0, 0, false)
  | .unlock => (27, 0, 0, false)
  | .startChromeSession => (28, 0, 0, false)
  | .androidCoverageStart => (29, 0, 0, false)
  | .processExists => (30, 0, 0, false)
  | .startApp => (31, 0, 0, false)
  | .setOrientation => (32, 0, 0, false)
  | .setContext => (33, 0, 0, false)
  | .getDeviceDetails => (34, 0, 0, false)
  | .mjpegStreamStart => (35, 0, 0, false)
  | .removeAllSessionWebSocketHandlers => (36, 0, 0, false)
  | .stopChromedriverProxies => (37, 0, 0, false)
  | .serverDeleteSession => (38, 0, 0, false)
  | .stopRecordingScreen => (39, 0, 0, false)
  | .isMediaProjectionRecordingRunning => (40, 0, 0, false)
  | .stopMediaProjectionRecording => (41, 0, 0, false)
  | .stopScreenStreaming => (42, 0, 0, false)
  | .endAndroidCoverage => (43, 0, 0, false)
  | .broadcast => (44, 0, 0, false)
  | .forceStop => (45, 0, 0, false)
  | .stopLogcat => (46, 0, 0, false)
  | .removePortForward p => (47, p, 0, false)
  | .setDefaultHiddenApiPolicy => (48, 0, 0, false)
  | .killEmulator => (49, 0, 0, false)
  | .mjpegStreamStop => (50, 0, 0, false)
  | .baseDeleteSession => (51, 0, 0, false)

/-- Left inverse of `Event.enc` on its image (arbitrary elsewhere). -/
def Event.dec : Nat × Nat × Nat × Bool → Event
  | (0, _, _, _) => .baseCreateSession
  | (1, _, _, _) => .configureApp
  | (2, _, _, _) => .checkAppExists
  | (3, _, _, _) => .getDeviceInfoFromCaps
  | (4, _, _, _) => .createADB
  | (5, _, _, _) => .getApiLevel
  | (6, _, _, _) => .setHiddenApiPolicy
  | (7, _, _, _) => .toggleGPSLocationProvider
  | (8, _, _, _) => .getLaunchInfo
  | (9, _, _, _) => .initDevice
  | (10, p, _, _) => .checkPortStatus p
  | (11, _, _, _) => .findFreePortScan
  | (12, l, d, _) => .forwardPort l d
  | (13, _, _, _) => .installServerApk
  | (14, _, _, _) => .addToDeviceIdleWhitelist
  | (15, _, _, _) => .isAnimationOn
  | (16, _, _, b) => .setAnimationState b
  | (17, _, _, _) => .uninstallOtherPackages
  | (18, _, _, _) => .installOtherApks
  | (19, _, _, _) => .isAppInstalled
  | (20, _, _, _) => .checkApkCert
  | (21, _, _, _) => .signApp
  | (22, _, _, _) => .uninstallApk
  | (23, _, _, _) => .installApk
  | (24, _, _, _) => .resetApp
  | (25, _, _, _) => .serverStartSession
  | (26, _, _, _) => .getDeviceInfoFromUia2
  | (27, _, _, _) => .unlock
  | (28, _, _, _) => .startChromeSession
  | (29, _, _, _) => .androidCoverageStart
  | (30, _, _, _) => .processExists
  | (31, _, _, _) => .startApp
  | (32, _, _, _) => .setOrientation
  | (33, _, _, _) => .setContext
  | (34, _, _, _) => .getDeviceDetails
  | (35, _, _, _) => .mjpegStreamStart
  | (36, _, _, _) => .removeAllSessionWebSocketHandlers
  | (37, _, _, _) => .stopChromedriverProxies
  | (38, _, _, _) => .serverDeleteSession
  | (39, _, _, _) => .stopRecordingScreen
  | (40, _, _, _) => .isMediaProjectionRecordingRunning
  | (41, _, _, _) => .stopMediaProjectionRecording
  | (42, _, _, _) => .stopScreenStreaming
  | (43, _, _, _) => .endAndroidCoverage
  | (44, _, _, _) => .broadcast
  | (45, _, _, _) => .forceStop
  | (46, _, _, _) => .stopLogcat
  | (47, p, _, _) => .removePortForward p
  | (48, _, _, _) => .setDefaultHiddenApiPolicy
  | (49, _, _, _) => .killEmulator
  | (50, _, _, _) => .mjpegStreamStop
  | _ => .baseDeleteSession

theorem Event.dec_enc : ∀ e : Event, Event.dec (Event.enc e) = e := by
  intro e
  cases e <;> rfl

instance : DecidableEq Event := fun a b =>
  if h : Event.enc a = Event.enc b then
    isTrue (by
      have hd := congrArg Event.dec h
      rwa [Event.dec_enc, Event.dec_enc] at hd)
  else
    isFalse (fun he => h (by rw [he]))

/-- Errors the driver can raise.  `stepFailed ev` stands for a collaborator
call `ev` rejecting; the named constructors correspond to the specific
errorAndThrow sites in the source. -/
inductive Err
  | portBusy (port : Nat)
  | portRangeExhausted
  | unsupportedApiLevel
  | fullResetNeedsApp
  | avdInfoMissing
  | removeAbsentForward
  | adbMissing
  | stepFailed (ev : Event)
  deriving DecidableEq

/-- HTTP methods appearing in the no-proxy route tables. -/
inductive Method
  | get
  | post
  | delete
  deriving DecidableEq

/-- A JS regular expression, kept as its source string.  The matching
semantics live in the JS engine (a collaborator), so route matching takes
a regex-test function as a parameter. -/
structure ReSrc where
  source : String
  deriving DecidableEq

/-- A route rule: method plus path pattern, meaning do not proxy. -/
abbrev RouteRule := Method × ReSrc

/-- NO_PROXY from src/lib/driver.ts: method/path pairs never proxied to the
UiAutomator2 server. -/
def NO_PROXY : List RouteRule := [
  (.delete, ⟨"^/session/[^/]+/actions"⟩),
  (.get, ⟨"^/session/(?!.*/)"⟩),
  (.get, ⟨"^/session/[^/]+/alert_[^/]+"⟩),
  (.get, ⟨"^/session/[^/]+/alert/[^/]+"⟩),
  (.get, ⟨"^/session/[^/]+/appium/[^/]+/current_activity"⟩),
  (.get, ⟨"^/session/[^/]+/appium/[^/]+/current_package"⟩),
  (.get, ⟨"^/session/[^/]+/appium/app/[^/]+"⟩),
  (.get, ⟨"^/session/[^/]+/appium/device/[^/]+"⟩),
  (.get, ⟨"^/session/[^/]+/appium/settings"⟩),
  (.get, ⟨"^/session/[^/]+/context"⟩),
  (.get, ⟨"^/session/[^/]+/contexts"⟩),
  (.get, ⟨"^/session/[^/]+/element/[^/]+/attribute"⟩),
  (.get, ⟨"^/session/[^/]+/element/[^/]+/displayed"⟩),
  (.get, ⟨"^/session/[^/]+/element/[^/]+/enabled"⟩),
  (.get, ⟨"^/session/[^/]+/element/[^/]+/location_in_view"⟩),
  (.get, ⟨"^/session/[^/]+/element/[^/]+/name"⟩),
  (.get, ⟨"^/session/[^/]+/element/[^/]+/screenshot"⟩),
  (.get, ⟨"^/session/[^/]+/element/[^/]+/selected"⟩),
  (.get, ⟨"^/session/[^/]+/ime/[^/]+"⟩),
  (.get, ⟨"^/session/[^/]+/location"⟩),
  (.get, ⟨"^/session/[^/]+/network_connection"⟩),
  (.get, ⟨"^/session/[^/]+/screenshot"⟩),
  (.get, ⟨"^/session/[^/]+/timeouts"⟩),
  (.get, ⟨"^/session/[^/]+/url"⟩),
  (.post, ⟨"^/session/[^/]+/[^/]+_alert$"⟩),
  (.post, ⟨"^/session/[^/]+/actions"⟩),
  (.post, ⟨"^/session/[^/]+/alert/[^/]+"⟩),
  (.post, ⟨"^/session/[^/]+/app/[^/]"⟩),
  (.post, ⟨"^/session/[^/]+/appium/[^/]+/start_activity"⟩),
  (.post, ⟨"^/session/[^/]+/appium/app/[^/]+"⟩),
  (.post, ⟨"^/session/[^/]+/appium/compare_images"⟩),
  (.post, ⟨"^/session/[^/]+/appium/device/(?!set_clipboard)[^/]+"⟩),
  (.post, ⟨"^/session/[^/]+/appium/element/[^/]+/replace_value"⟩),
  (.post, ⟨"^/session/[^/]+/appium/element/[^/]+/value"⟩),
  (.post, ⟨"^/session/[^/]+/appium/getPerformanceData"⟩),
  (.post, ⟨"^/session/[^/]+/appium/performanceData/types"⟩),
  (.post, ⟨"^/session/[^/]+/appium/settings"⟩),
  (.post, ⟨"^/session/[^/]+/appium/execute_driver"⟩),
  (.post, ⟨"^/session/[^/]+/appium/start_recording_screen"⟩),
  (.post, ⟨"^/session/[^/]+/appium/stop_recording_screen"⟩),
  (.post, ⟨"^/session/[^/]+/appium/.*event"⟩),
  (.post, ⟨"^/session/[^/]+/context"⟩),
  (.post, ⟨"^/session/[^/]+/element"⟩),
  (.post, ⟨"^/session/[^/]+/ime/[^/]+"⟩),
  (.post, ⟨"^/session/[^/]+/keys"⟩),
  (.post, ⟨"^/session/[^/]+/location"⟩),
  (.post, ⟨"^/session/[^/]+/network_connection"⟩),
  (.post, ⟨"^/session/[^/]+/timeouts"⟩),
  (.post, ⟨"^/session/[^/]+/touch/multi/perform"⟩),
  (.post, ⟨"^/session/[^/]+/touch/perform"⟩),
  (.post, ⟨"^/session/[^/]+/url"⟩),
  (.get, ⟨"^/session/[^/]+/log/types"⟩),
  (.post, ⟨"^/session/[^/]+/execute"⟩),
  (.post, ⟨"^/session/[^/]+/execute_async"⟩),
  (.post, ⟨"^/session/[^/]+/log"⟩),
  (.get, ⟨"^/session/[^/]+/se/log/types"⟩),
  (.get, ⟨"^/session/[^/]+/window/rect"⟩),
  (.post, ⟨"^/session/[^/]+/execute/async"⟩),
  (.post, ⟨"^/session/[^/]+/execute/sync"⟩),
  (.post, ⟨"^/session/[^/]+/se/log"⟩)]

/-- CHROME_NO_PROXY from src/lib/driver.ts: method/path pairs never proxied
to Chromedriver. -/
def CHROME_NO_PROXY : List RouteRule := [
  (.get, ⟨"^/session/[^/]+/appium"⟩),
  (.get, ⟨"^/session/[^/]+/context"⟩),
  (.get, ⟨"^/session/[^/]+/element/[^/]+/rect"⟩),
  (.get, ⟨"^/session/[^/]+/orientation"⟩),
  (.post, ⟨"^/session/[^/]+/appium"⟩),
  (.post, ⟨"^/session/[^/]+/context"⟩),
  (.post, ⟨"^/session/[^/]+/orientation"⟩),
  (.post, ⟨"^/session/[^/]+/touch/multi/perform"⟩),
  (.post, ⟨"^/session/[^/]+/touch/perform"⟩),
  (.post, ⟨"^/session/[^/]+/execute$"⟩),
  (.post, ⟨"^/session/[^/]+/execute/sync"⟩),
  (.get, ⟨"^/session/[^/]+/log/types$"⟩),
  (.post, ⟨"^/session/[^/]+/log$"⟩),
  (.get, ⟨"^/session/[^/]+/se/log/types$"⟩),
  (.post, ⟨"^/session/[^/]+/se/log$"⟩)]

/-- The range of local ports scanned for the UiAutomator2 server forward. -/
def DEVICE_PORT_RANGE : Nat × Nat := (8200, 8299)

/-- The fixed port UiAutomator2 listens on on the device. -/
def DEVICE_PORT : Nat := 6790

/-- The fixed port of the on-device MJPEG server. -/
def MJPEG_SERVER_DEVICE_PORT : Nat := 7810

/-- Shape of the result of helpers.getLaunchInfo: package/activity data read
from the app manifest, spread onto this.opts when present. -/
structure LaunchAppInfo where
  appPackage : Option String
  appActivity : Option String
  deriving DecidableEq

/-- The capability-derived options the modelled methods read (this.opts and
this.caps).  Boolean fields already reflect the defaults merged in
createSession (fullReset false, autoLaunch true); fields the caller did not
set are none or false. -/
structure Opts where
  systemPort : Option Nat
  mjpegServerPort : Option Nat
  app : Option String
  appPackage : Option String
  appActivity : Option String
  browserName : Option String
  avd : Option String
  deviceName : Option String
  platformVersion : Option String
  orientation : Option String
  autoWebviewTimeout : Option Nat
  gpsEnabled : Option Bool
  uninstallOtherPackages : Option (List String)
  otherApps : Option (List String)
  mjpegScreenshotUrl : Option String
  androidCoverage : Option String
  androidCoverageEndIntent : Option String
  fullReset : Bool
  noReset : Bool
  fastReset : Bool
  skipUninstall : Bool
  noSign : Bool
  skipUnlock : Bool
  skipServerInstallation : Bool
  autoLaunch : Bool
  autoWebview : Bool
  disableWindowAnimation : Bool
  nativeWebScreenshot : Bool
  dontStopAppOnReset : Bool
  shouldTerminateApp : Bool
  reboot : Bool
  forceAppLaunch : Bool
  deriving DecidableEq

/-- isChromeSession getter (from the Android base driver): true when a
browser target was requested via browserName. -/
def isChromeSession (o : Opts) : Bool := o.browserName.isSome

/-- Outcomes of every collaborator call: which local ports are busy, the
device API level, and one success flag per fallible external operation.
The driver only observes these outcomes (spec section 6), so they are the
model of the device bridge, the on-device server and the helper modules. -/
structure Env where
  busy : Nat → Bool
  apiLevel : Nat
  isEmulator : Bool
  animationOn : Bool
  webviewAvailable : Bool
  launchInfo : Option LaunchAppInfo
  mediaProjectionRunning : Bool
  processRunning : Bool
  appInstalled : Bool
  apkCertOk : Bool
  strictRemoveForward : Bool
  forwardPortOk : Bool
  removeForwardOk : Bool
  baseCreateOk : Bool
  configureAppOk : Bool
  appExists : Bool
  deviceInfoOk : Bool
  createAdbOk : Bool
  hiddenApiOk : Bool
  gpsOk : Bool
  launchInfoOk : Bool
  initDeviceOk : Bool
  installServerOk : Bool
  idleWhitelistOk : Bool
  animationCheckOk : Bool
  setAnimationOk : Bool
  uninstallOtherOk : Bool
  otherAppsOk : Bool
  signAppOk : Bool
  uninstallApkOk : Bool
  installApkOk : Bool
  resetAppOk : Bool
  serverStartOk : Bool
  deviceInfoUia2Ok : Bool
  unlockOk : Bool
  chromeSessionOk : Bool
  coverageStartOk : Bool
  startAppOk : Bool
  setOrientationOk : Bool
  deviceDetailsOk : Bool
  mjpegStartOk : Bool
  removeWsHandlersOk : Bool
  stopChromeProxiesOk : Bool
  serverDeleteOk : Bool
  stopRecordingOk : Bool
  stopMediaProjOk : Bool
  stopStreamingOk : Bool
  endCoverageOk : Bool
  broadcastOk : Bool
  forceStopOk : Bool
  stopLogcatOk : Bool
  setDefaultHiddenApiOk : Bool
  killEmulatorOk : Bool
  baseDeleteOk : Bool

/-- The mutable driver-instance state plus the bridge-side port-forward
table and the trace of performed external calls.  Field names follow the
source (hasSystemPortInCaps is _hasSystemPortInCaps; chromedriver true
models util.hasValue of this.chromedriver). -/
structure DriverState where
  opts : Opts
  systemPort : Option Nat
  hasSystemPortInCaps : Bool
  adb : Bool
  uiautomator2 : Bool
  jwpProxyActive : Bool
  chromedriver : Bool
  mjpegStream : Bool
  wasWindowAnimationDisabled : Bool
  screenRecordingProps : Bool
  screenStreamingProps : Bool
  jwpProxyAvoid : List RouteRule
  forwards : List (Nat × Nat)
  events : List Event
  deriving DecidableEq

/-- The state of a freshly constructed driver object at createSession time.
The constructor sets jwpProxyActive false and jwpProxyAvoid NO_PROXY; the
systemPort capability lands on the instance field before allocation. -/
def initialState (o : Opts) : DriverState where
  opts := o
  systemPort := o.systemPort
  hasSystemPortInCaps := false
  adb := false
  uiautomator2 := false
  jwpProxyActive := false
  chromedriver := false
  mjpegStream := false
  wasWindowAnimationDisabled := false
  screenRecordingProps := false
  screenStreamingProps := false
  jwpProxyAvoid := NO_PROXY
  forwards := []
  events := []

/-- One async driver step: state in, result or raised error plus the state
as mutated so far (JS exceptions leave the object mutated). -/
def StepM (α : Type) : Type := DriverState → Except Err α × DriverState

/-- Sequencing of steps, short-circuiting on a raised error. -/
def bindS {α β : Type} (x : StepM α) (f : α → StepM β) : StepM β := fun s =>
  match x s with
  | (Except.ok a, s1) => f a s1
  | (Except.error e, s1) => (Except.error e, s1)

instance : Monad StepM where
  pure a := fun s => (Except.ok a, s)
  bind := bindS

/-- Read the current driver state. -/
def getS : StepM DriverState := fun s => (Except.ok s, s)

/-- Apply a state mutation. -/
def modifyS (f : DriverState → DriverState) : StepM Unit := fun s => (Except.ok (), f s)

/-- Raise an error. -/
def throwS {α : Type} (e : Err) : StepM α := fun s => (Except.error e, s)

/-- Record an external call that cannot reject. -/
def logEvent (ev : Event) : StepM Unit := fun s =>
  (Except.ok (), {s with events := s.events ++ [ev]})

/-- Record a fallible external call whose outcome the environment fixes. -/
def externStep (ok : Bool) (ev : Event) : StepM Unit := fun s =>
  ((if ok then Except.ok () else Except.error (Err.stepFailed ev)),
   {s with events := s.events ++ [ev]})

/-- A try/catch block that logs and swallows any error (the individually
wrapped teardown sub-steps). -/
def attemptS {α : Type} (x : StepM α) : StepM Unit := fun s =>
  match x s with
  | (Except.ok _, s1) => (Except.ok (), s1)
  | (Except.error _, s1) => (Except.ok (), s1)

theorem bind_run {α β : Type} (x : StepM α) (f : α → StepM β) (s : DriverState) :
    (x >>= f) s = match x s with
      | (Except.ok a, s1) => f a s1
      | (Except.error e, s1) => (Except.error e, s1) := rfl

theorem pure_run {α : Type} (a : α) (s : DriverState) :
    (pure a : StepM α) s = (Except.ok a, s) := rfl

/-- portscanner checkPortStatus against 127.0.0.1: open means something is
already listening locally on the port. -/
def checkPortStatusOpen (env : Env) (port : Nat) : Bool := env.busy port

/-- The scan of findAPortNotInUse: the first of n consecutive ports starting
at startPort with nothing listening on it. -/
def scanRange (env : Env) : Nat → Nat → Option Nat
  | _, 0 => none
  | startPort, n + 1 =>
    if !env.busy startPort then some startPort else scanRange env (startPort + 1) n

/-- portscanner findAPortNotInUse over the inclusive range a..b. -/
def findAPortNotInUse (env : Env) (a b : Nat) : Option Nat :=
  scanRange env a (b + 1 - a)

/-- The inner forwardPort closure of allocateSystemPort: fail if the local
port is busy, otherwise forward the device control port to it via ADB.  The
non-null assertion this.adb! raises at runtime when no ADB instance is
attached, modelled by the adbMissing error. -/
def forwardPort (env : Env) (localPort : Nat) : StepM Unit := do
  logEvent (.checkPortStatus localPort)
  if checkPortStatusOpen env localPort then
    throwS (.portBusy localPort)
  else do
    let s ← getS
    if !s.adb then throwS .adbMissing
    else do
      logEvent (.forwardPort localPort DEVICE_PORT)
      if env.forwardPortOk then
        modifyS (fun st => {st with forwards := st.forwards ++ [(localPort, DEVICE_PORT)]})
      else throwS (.stepFailed (.forwardPort localPort DEVICE_PORT))

/-- allocateSystemPort: with a caller-supplied systemPort capability, mark
provenance and forward it; otherwise, under the cross-session port guard
(transparent for a single session), scan DEVICE_PORT_RANGE for a free port,
record it as systemPort and forward it. -/
def allocateSystemPort (env : Env) : StepM Unit := do
  let s ← getS
  match s.systemPort with
  | some p => do
      modifyS (fun st => {st with hasSystemPortInCaps := true})
      forwardPort env p
  | none => do
      let (startPort, endPort) := DEVICE_PORT_RANGE
      logEvent .findFreePortScan
      match findAPortNotInUse env startPort endPort with
      | none => throwS .portRangeExhausted
      | some p => do
          modifyS (fun st => {st with systemPort := some p})
          forwardPort env p

/-- adb.removePortForward: removes the bridge forward at the given local
port.  The bridge rejects when the operation itself fails, or — when the
bridge is strict, as adb forward --remove is — when no such forward exists. -/
def removePortForward (env : Env) (port : Nat) : StepM Unit := fun s =>
  let s1 : DriverState := {s with events := s.events ++ [Event.removePortForward port]}
  if !env.removeForwardOk then (Except.error (Err.stepFailed (Event.removePortForward port)), s1)
  else if s.forwards.any (fun f => f.1 == port) then
    (Except.ok (), {s1 with forwards := s1.forwards.filter (fun f => f.1 != port)})
  else if env.strictRemoveForward then (Except.error Err.removeAbsentForward, s1)
  else (Except.ok (), s1)

/-- releaseSystemPort: no-op unless a system port and an ADB instance exist;
then remove the forward, under the allocation guard when the port was
scanned (provenance _hasSystemPortInCaps). -/
def releaseSystemPort (env : Env) : StepM Unit := do
  let s ← getS
  match s.systemPort, s.adb with
  | some p, true =>
      if s.hasSystemPortInCaps then removePortForward env p
      else removePortForward env p
  | _, _ => pure ()

/-- allocateMjpegServerPort: forward the fixed device MJPEG port to the
requested local port when the capability is present. -/
def allocateMjpegServerPort (env : Env) : StepM Unit := do
  let s ← getS
  match s.opts.mjpegServerPort with
  | some mp => do
      if !s.adb then throwS .adbMissing
      else do
        logEvent (.forwardPort mp MJPEG_SERVER_DEVICE_PORT)
        if env.forwardPortOk then
          modifyS (fun st => {st with forwards := st.forwards ++ [(mp, MJPEG_SERVER_DEVICE_PORT)]})
        else throwS (.stepFailed (.forwardPort mp MJPEG_SERVER_DEVICE_PORT))
  | none => pure ()

/-- releaseMjpegServerPort: remove the MJPEG forward when it was requested. -/
def releaseMjpegServerPort (env : Env) : StepM Unit := do
  let s ← getS
  match s.opts.mjpegServerPort with
  | some mp => removePortForward env mp
  | none => pure ()

/-- getProxyAvoidList: pick CHROME_NO_PROXY when a chromedriver is active
(webview context), NO_PROXY otherwise, then append the screenshot no-proxy
rule when the nativeWebScreenshot capability is set. -/
def getProxyAvoidList (s0 : DriverState) : List RouteRule × DriverState :=
  let s1 : DriverState :=
    {s0 with jwpProxyAvoid := if s0.chromedriver then CHROME_NO_PROXY else NO_PROXY}
  let s2 : DriverState :=
    if s1.opts.nativeWebScreenshot then
      {s1 with jwpProxyAvoid := s1.jwpProxyAvoid ++ [(Method.get, ⟨"^/session/[^/]+/screenshot"⟩)]}
    else s1
  (s2.jwpProxyAvoid, s2)

/-- Modelled from the spec: the base driver (a collaborator outside src/)
dispatches each inbound request by consulting getProxyAvoidList; a request
whose method equals a rule's method and whose path the rule's pattern
matches is handled locally (true); every other request is proxied to the
device server (false).  The regex engine is the collaborating JS runtime,
passed in as reTest. -/
def routeRequest (reTest : ReSrc → String → Bool) (m : Method) (path : String)
    (s : DriverState) : Bool × DriverState :=
  let (avoid, s1) := getProxyAvoidList s
  (avoid.any (fun r => decide (r.1 = m) && reTest r.2 path), s1)

/-- proxyActive: the driver always reports an active proxy to the
UiAutomator2 server, whatever the session id and state. -/
def proxyActive (_sessionId : String) (_s : DriverState) : Bool := true

/-- canProxy: the driver can always proxy to the UiAutomator2 server. -/
def canProxy (_sessionId : String) (_s : DriverState) : Bool := true

/-- initUiAutomator2Server: construct the server handle (and bind the proxy
functions), then unless skipServerInstallation is set, install the server
APK and best-effort add the helper packages to the Doze whitelist (that
failure is caught and only logged). -/
def initUiAutomator2Server (env : Env) : StepM Unit := do
  modifyS (fun st => {st with uiautomator2 := true})
  let s ← getS
  if s.opts.skipServerInstallation then pure ()
  else do
    externStep env.installServerOk .installServerApk
    attemptS (externStep env.idleWhitelistOk .addToDeviceIdleWhitelist)

/-- The uninstallOtherPackages block at the head of initAUT. -/
def uninstallOtherPackagesStep (env : Env) : StepM Unit := do
  let s ← getS
  if s.opts.uninstallOtherPackages.isSome then
    externStep env.uninstallOtherOk .uninstallOtherPackages
  else pure ()

/-- The otherApps block of initAUT (parse, configure and install folded
into one collaborator outcome). -/
def installOtherApksStep (env : Env) : StepM Unit := do
  let s ← getS
  if s.opts.otherApps.isSome then externStep env.otherAppsOk .installOtherApks
  else pure ()

/-- The conditional re-sign of the app artifact inside initAUT. -/
def signAppIfNeeded (env : Env) (certOk : Bool) : StepM Unit :=
  if !certOk then externStep env.signAppOk .signApp else pure ()

/-- The conditional uninstall-before-install of initAUT. -/
def uninstallBeforeInstallStep (env : Env) : StepM Unit := do
  let s ← getS
  if !s.opts.skipUninstall then externStep env.uninstallApkOk .uninstallApk else pure ()

/-- The (re)install of the app under test inside initAUT: re-sign when the
certificate check demands it, uninstall unless skipped, then install. -/
def installAppUnderTest (env : Env) : StepM Unit := do
  let s ← getS
  let certOk ←
    if !s.opts.noSign then do
      logEvent .checkApkCert
      pure env.apkCertOk
    else pure true
  signAppIfNeeded env certOk
  uninstallBeforeInstallStep env
  externStep env.installApkOk .installApk

/-- initAUT: uninstall requested foreign packages, install otherApps, then
either prepare the app under test from the app artifact (sign, uninstall,
install according to reset policy), or — with no app artifact — fail when
fullReset is requested, else optionally fast-reset the named package. -/
def initAUT (env : Env) : StepM Unit := do
  uninstallOtherPackagesStep env
  installOtherApksStep env
  let s ← getS
  match s.opts.app with
  | some _ => do
      let installNeeded ←
        if s.opts.noReset then do
          logEvent .isAppInstalled
          pure (!env.appInstalled)
        else pure true
      if installNeeded then installAppUnderTest env else pure ()
  | none =>
      if s.opts.fullReset then throwS .fullResetNeedsApp
      else
        if s.opts.fastReset && s.opts.appPackage.isSome then
          externStep env.resetAppOk .resetApp
        else pure ()

/-- ensureAppStarts: under androidCoverage start instrumentation and return;
otherwise, if noReset is on, the app is running and no forced launch was
requested, do nothing; else start the app activity. -/
def ensureAppStarts (env : Env) : StepM Unit := do
  let s ← getS
  if s.opts.androidCoverage.isSome then externStep env.coverageStartOk .androidCoverageStart
  else do
    let alreadyRunning ←
      if s.opts.noReset && !s.opts.forceAppLaunch then do
        logEvent .processExists
        pure env.processRunning
      else pure false
    if alreadyRunning then pure () else externStep env.startAppOk .startApp

/-- startChromeSession (Android base driver collaborator): starts a
chromedriver session; on success the driver holds an active chromedriver. -/
def startChromeSession (env : Env) : StepM Unit := do
  externStep env.chromeSessionOk .startChromeSession
  modifyS (fun st => {st with chromedriver := true})

/-- One setContext attempt of the auto-webview poll: succeeds exactly when
the target webview context is available, switching to it (activating a
chromedriver). -/
def setContextAttempt (env : Env) : StepM Unit := do
  logEvent .setContext
  if env.webviewAvailable then modifyS (fun st => {st with chromedriver := true})
  else throwS (.stepFailed .setContext)

/-- Modelled from the spec: asyncbox retryInterval (a collaborator outside
src/) performs up to n fixed-interval attempts, stopping at the first
success and re-raising the last failure after the final attempt. -/
def retryIntervalGo (attempt : StepM Unit) : Nat → StepM Unit
  | 0 => throwS (.stepFailed .setContext)
  | n + 1 => fun s =>
      match attempt s with
      | (Except.ok _, s1) => (Except.ok (), s1)
      | (Except.error e, s1) =>
          if n = 0 then (Except.error e, s1) else retryIntervalGo attempt n s1

/-- The auto-webview block of startUiAutomator2Session: poll setContext
every 500 ms for timeout/500 attempts, where timeout is the
autoWebviewTimeout capability or 2000 ms. -/
def autoWebviewStep (env : Env) : StepM Unit := do
  let s ← getS
  if s.opts.autoWebview then
    retryIntervalGo (setContextAttempt env) ((s.opts.autoWebviewTimeout.getD 2000) / 500)
  else pure ()

/-- The hidden-api relaxation of devicePrepPhase (Android P and later). -/
def hiddenApiPolicyStep (env : Env) : StepM Unit :=
  if env.apiLevel ≥ 28 then externStep env.hiddenApiOk .setHiddenApiPolicy else pure ()

/-- The gpsEnabled block of devicePrepPhase: toggle the GPS provider on
emulators, warn-and-skip on real devices. -/
def gpsStep (env : Env) : StepM Unit := do
  let s ← getS
  match s.opts.gpsEnabled with
  | some _ =>
      if env.isEmulator then externStep env.gpsOk .toggleGPSLocationProvider
      else pure ()
  | none => pure ()

/-- helpers.getLaunchInfo plus the spread of its result onto this.opts. -/
def launchInfoMergeStep (env : Env) : StepM Unit := do
  externStep env.launchInfoOk .getLaunchInfo
  modifyS (fun st =>
    match env.launchInfo with
    | some li =>
        {st with opts := {st.opts with
          appPackage := match li.appPackage with
            | some p => some p
            | none => st.opts.appPackage,
          appActivity := match li.appActivity with
            | some a => some a
            | none => st.opts.appActivity}}
    | none => st)

/-- Device preparation phase of startUiAutomator2Session: device info from
caps, ADB creation, API level gate (minimum 21), hidden-api policy
relaxation from API 28, optional GPS toggle (emulator only), launch info
from the manifest merged onto opts, and device priming (initDevice). -/
def devicePrepPhase (env : Env) : StepM Unit := do
  externStep env.deviceInfoOk .getDeviceInfoFromCaps
  externStep env.createAdbOk .createADB
  modifyS (fun st => {st with adb := true})
  logEvent .getApiLevel
  if env.apiLevel < 21 then throwS .unsupportedApiLevel
  else do
    hiddenApiPolicyStep env
    gpsStep env
    launchInfoMergeStep env
    externStep env.initDeviceOk .initDevice

/-- Server setup phase of startUiAutomator2Session: forward the control
port (allocateSystemPort) and the MJPEG port, set up the UiAutomator2
server, and disable window animation below API 26 when requested,
remembering that it was disabled. -/
def serverSetupPhase (env : Env) : StepM Unit := do
  allocateSystemPort env
  allocateMjpegServerPort env
  initUiAutomator2Server env
  let s ← getS
  if s.opts.disableWindowAnimation then do
    logEvent .getApiLevel
    if env.apiLevel < 26 then do
      externStep env.animationCheckOk .isAnimationOn
      if env.animationOn then do
        externStep env.setAnimationOk (.setAnimationState false)
        modifyS (fun st => {st with wasWindowAnimationDisabled := true})
      else pure ()
    else pure ()
  else pure ()

/-- The unlock block of startUiAutomator2Session. -/
def unlockStep (env : Env) : StepM Unit := do
  let s ← getS
  if !s.opts.skipUnlock then externStep env.unlockOk .unlock else pure ()

/-- The launch block of startUiAutomator2Session: chromedriver session for
browser targets, else auto-launch of the app under test when requested. -/
def launchAppOrChrome (env : Env) : StepM Unit := do
  let s ← getS
  if isChromeSession s.opts then startChromeSession env
  else
    if s.opts.autoLaunch && s.opts.appPackage.isSome then ensureAppStarts env
    else pure ()

/-- The initial-orientation block of startUiAutomator2Session. -/
def orientationStep (env : Env) : StepM Unit := do
  let s ← getS
  match s.opts.orientation with
  | some _ => externStep env.setOrientationOk .setOrientation
  | none => pure ()

/-- App/session launch phase of startUiAutomator2Session: prepare the app
under test, start the on-device server session, read live device info,
unlock unless suppressed, start a chromedriver session for browser targets
or auto-launch the app, and apply a requested initial orientation. -/
def appLaunchPhase (env : Env) : StepM Unit := do
  initAUT env
  externStep env.serverStartOk .serverStartSession
  externStep env.deviceInfoUia2Ok .getDeviceInfoFromUia2
  unlockStep env
  launchAppOrChrome env
  orientationStep env

/-- startUiAutomator2Session: the ordered provisioning sequence; after the
auto-webview poll it flips jwpProxyActive on and fetches device details for
the returned capability bundle. -/
def startUiAutomator2Session (env : Env) : StepM Unit := do
  devicePrepPhase env
  serverSetupPhase env
  appLaunchPhase env
  autoWebviewStep env
  modifyS (fun st => {st with jwpProxyActive := true})
  externStep env.deviceDetailsOk .getDeviceDetails

/-- setAvdFromCapabilities: with no avd capability, derive one from
deviceName and platformVersion, failing when either is absent (character
sanitation of the device name is not modelled). -/
def setAvdFromCapabilities : StepM Unit := do
  let s ← getS
  if s.opts.avd.isSome then pure ()
  else
    if s.opts.deviceName.isNone then throwS .avdInfoMissing
    else
      if s.opts.platformVersion.isNone then throwS .avdInfoMissing
      else
        modifyS (fun st =>
          {st with opts := {st.opts with
            avd := some ((st.opts.deviceName.getD "") ++ "__" ++
              (st.opts.platformVersion.getD ""))}})

/-- checkAppPresent: fail when the app artifact does not exist on the host
file system. -/
def checkAppPresent (env : Env) : StepM Unit := do
  logEvent .checkAppExists
  if env.appExists then pure () else throwS (.stepFailed .checkAppExists)

/-- The Chrome package/activity resolution at the head of createSession. -/
def chromePkgStep : StepM Unit := do
  let s ← getS
  if isChromeSession s.opts then
    modifyS (fun st =>
      {st with opts := {st.opts with
        appPackage := some "com.android.chrome",
        appActivity := some "com.google.android.apps.chrome.Main"}})
  else pure ()

/-- The reboot-driven avd derivation of createSession. -/
def rebootAvdStep : StepM Unit := do
  let s ← getS
  if s.opts.reboot then setAvdFromCapabilities else pure ()

/-- The app artifact configuration and presence check of createSession. -/
def configureAppStep (env : Env) : StepM Unit := do
  let s ← getS
  match s.opts.app with
  | some _ => do
      externStep env.configureAppOk .configureApp
      checkAppPresent env
  | none => pure ()

/-- The MJPEG screenshot stream startup at the tail of createSession. -/
def mjpegStreamStartStep (env : Env) : StepM Unit := do
  let s ← getS
  match s.opts.mjpegScreenshotUrl with
  | some _ => do
      modifyS (fun st => {st with mjpegStream := true})
      externStep env.mjpegStartOk .mjpegStreamStart
  | none => pure ()

/-- The body of the createSession try block: base session creation,
Chrome package resolution for browser targets, optional avd derivation for
reboot, app artifact configuration and presence check, the provisioning
sequence, and the optional MJPEG screenshot stream. -/
def createSessionInner (env : Env) : StepM Unit := do
  externStep env.baseCreateOk .baseCreateSession
  chromePkgStep
  rebootAvdStep
  configureAppStep env
  startUiAutomator2Session env
  mjpegStreamStartStep env

/-- The three screen-capture stop tasks of deleteSession: each is
individually wrapped so that one failure is swallowed and the others still
run. -/
def screenRecordingStopStep (env : Env) : StepM Unit := do
  attemptS (do
    let s ← getS
    if s.screenRecordingProps then externStep env.stopRecordingOk .stopRecordingScreen
    else pure ())
  attemptS (do
    logEvent .isMediaProjectionRecordingRunning
    if env.mediaProjectionRunning then
      externStep env.stopMediaProjOk .stopMediaProjectionRecording
    else pure ())
  attemptS (do
    let s ← getS
    if s.screenStreamingProps then externStep env.stopStreamingOk .stopScreenStreaming
    else pure ())

/-- The best-effort device-server session end of deleteSession, performed
only while proxying was active. -/
def serverDeleteIfActive (env : Env) : StepM Unit := do
  let s ← getS
  if s.jwpProxyActive then attemptS (externStep env.serverDeleteOk .serverDeleteSession)
  else pure ()

/-- The uiautomator2-handle part of deleteSession: best-effort stop of
chromedriver proxies, best-effort device-server session end when proxying
was active, then drop the handle. -/
def teardownServerPhase (env : Env) : StepM Unit := do
  let s ← getS
  if s.uiautomator2 then do
    attemptS (do
      externStep env.stopChromeProxiesOk .stopChromedriverProxies
      modifyS (fun st => {st with chromedriver := false}))
    serverDeleteIfActive env
    modifyS (fun st => {st with uiautomator2 := false})
  else pure ()

/-- The coverage shutdown of deleteSession: endAndroidCoverage and the
optional end-intent broadcast, neither of which is wrapped. -/
def coverageEndStep (env : Env) : StepM Unit := do
  let s ← getS
  if s.opts.androidCoverage.isSome then do
    externStep env.endCoverageOk .endAndroidCoverage
    if s.opts.androidCoverageEndIntent.isSome then externStep env.broadcastOk .broadcast
    else pure ()
  else pure ()

/-- The wrapped force-stop of the app under test during teardown, per the
reset policy. -/
def forceStopIfNeeded (env : Env) : StepM Unit := do
  let s ← getS
  if s.opts.appPackage.isSome &&
      (!(isChromeSession s.opts) &&
        ((!s.opts.dontStopAppOnReset && !s.opts.noReset) ||
          (s.opts.noReset && s.opts.shouldTerminateApp))) then
    attemptS (externStep env.forceStopOk .forceStop)
  else pure ()

/-- The wrapped fullReset-driven uninstall of the app under test during
teardown. -/
def uninstallIfFullReset (env : Env) : StepM Unit := do
  let s ← getS
  if s.opts.appPackage.isSome && (s.opts.fullReset && !s.opts.skipUninstall) then
    attemptS (externStep env.uninstallApkOk .uninstallApk)
  else pure ()

/-- The unwrapped restore of the window-animation state during teardown. -/
def restoreAnimationStep (env : Env) : StepM Unit := do
  let s ← getS
  if s.wasWindowAnimationDisabled then externStep env.setAnimationOk (.setAnimationState true)
  else pure ()

/-- The app/coverage/animation/logcat part of the adb block of
deleteSession.  Coverage shutdown, its broadcast, the window-animation
restore and stopLogcat are not wrapped; force-stop and uninstall are. -/
def teardownAppStopPhase (env : Env) : StepM Unit := do
  screenRecordingStopStep env
  coverageEndStep env
  forceStopIfNeeded env
  uninstallIfFullReset env
  restoreAnimationStep env
  externStep env.stopLogcatOk .stopLogcat

/-- The port-release part of deleteSession: both releases are individually
wrapped so a failure in one is logged and the other still runs. -/
def teardownPortReleasePhase (env : Env) : StepM Unit := do
  attemptS (releaseSystemPort env)
  attemptS (releaseMjpegServerPort env)

/-- The unwrapped hidden-api policy restore from API 28 during teardown. -/
def hiddenApiRestoreStep (env : Env) : StepM Unit := do
  logEvent .getApiLevel
  if env.apiLevel ≥ 28 then externStep env.setDefaultHiddenApiOk .setDefaultHiddenApiPolicy
  else pure ()

/-- The wrapped emulator shutdown for rebooted sessions during teardown. -/
def killEmulatorStep (env : Env) : StepM Unit := do
  let s ← getS
  if s.opts.reboot then attemptS (externStep env.killEmulatorOk .killEmulator)
  else pure ()

/-- The tail of the adb block of deleteSession. -/
def teardownFinalAdbPhase (env : Env) : StepM Unit := do
  hiddenApiRestoreStep env
  killEmulatorStep env

/-- The adb-guarded block of deleteSession. -/
def teardownAdbPhase (env : Env) : StepM Unit := do
  let s ← getS
  if s.adb then do
    teardownAppStopPhase env
    teardownPortReleasePhase env
    teardownFinalAdbPhase env
  else pure ()

/-- The MJPEG stream stop at the tail of deleteSession (synchronous). -/
def mjpegStreamStopStep : StepM Unit := do
  let s ← getS
  if s.mjpegStream then logEvent .mjpegStreamStop else pure ()

/-- deleteSession: the teardown sequence, runnable from any state
(including after a provisioning failure).  Websocket-handler removal, the
unwrapped parts of the adb block and the final base-driver session close
can reject and abort the remaining sub-steps. -/
def deleteSession (env : Env) : StepM Unit := do
  externStep env.removeWsHandlersOk .removeAllSessionWebSocketHandlers
  teardownServerPhase env
  modifyS (fun st => {st with jwpProxyActive := false})
  teardownAdbPhase env
  mjpegStreamStopStep
  externStep env.baseDeleteOk .baseDeleteSession

/-- createSession: run the provisioning sequence from a fresh driver
instance; on any error, run the full teardown and only then re-raise the
caught error (an error raised by the teardown itself propagates instead). -/
def createSession (env : Env) (o : Opts) : Except Err Unit × DriverState :=
  match createSessionInner env (initialState o) with
  | (Except.ok a, s) => (Except.ok a, s)
  | (Except.error e, s) =>
    match deleteSession env s with
    | (Except.ok _, s1) => (Except.error e, s1)
    | (Except.error e2, s1) => (Except.error e2, s1)

/-- No live forward of the device control port remains in the bridge
forward table. -/
def noControlForward (s : DriverState) : Bool :=
  s.forwards.all (fun f => f.2 != DEVICE_PORT)

/-- Control-forward bookkeeping invariant: every live forward of the device
control port is at the recorded systemPort of a driver that holds an ADB
connection. -/
def controlForwardInv (s : DriverState) : Bool :=
  s.forwards.all (fun f => f.2 != DEVICE_PORT || (s.systemPort == some f.1 && s.adb))

/-- The teardown-relevant collaborator calls that deleteSession does not
individually wrap all succeed, and forward removal works. -/
def TeardownBenign (env : Env) : Prop :=
  env.removeWsHandlersOk = true ∧ env.endCoverageOk = true ∧ env.broadcastOk = true ∧
  env.setAnimationOk = true ∧ env.stopLogcatOk = true ∧ env.setDefaultHiddenApiOk = true ∧
  env.baseDeleteOk = true ∧ env.removeForwardOk = true

theorem forwardPort_run (env : Env) (p : Nat) (s : DriverState) :
    forwardPort env p s =
      if env.busy p then
        (Except.error (Err.portBusy p),
         {s with events := s.events ++ [Event.checkPortStatus p]})
      else if !s.adb then
        (Except.error Err.adbMissing,
         {s with events := s.events ++ [Event.checkPortStatus p]})
      else if env.forwardPortOk then
        (Except.ok (),
         {s with events := s.events ++ [Event.checkPortStatus p, Event.forwardPort p DEVICE_PORT],
                 forwards := s.forwards ++ [(p, DEVICE_PORT)]})
      else
        (Except.error (Err.stepFailed (Event.forwardPort p DEVICE_PORT)),
         {s with events := s.events ++ [Event.checkPortStatus p, Event.forwardPort p DEVICE_PORT]}) := by
  cases hb : env.busy p <;> cases ha : s.adb <;> cases hf : env.forwardPortOk <;>
    simp [forwardPort, checkPortStatusOpen, bind_run, logEvent, getS, modifyS, throwS, hb, ha, hf]

/-- C10: for every session identifier and every driver state — in
particular whatever the value of the jwpProxyActive flag — proxyActive and
canProxy both return true. -/
theorem proxyActive_canProxy_always_true (sessionId : String) (s : DriverState) :
    proxyActive sessionId s = true ∧ canProxy sessionId s = true := ⟨rfl, rfl⟩

/-- C7: with no screenshot extension in play, the route matcher consults
the Chrome no-proxy table exactly when a chromedriver is active (webview
context) and the native table otherwise, and an inbound request is handled
locally exactly when some rule of the active table matches its method and
path; every other request is proxied. -/
theorem routeMatcher_table_selection (reTest : ReSrc → String → Bool)
    (m : Method) (path : String) (s : DriverState)
    (hnw : s.opts.nativeWebScreenshot = false) :
    ((getProxyAvoidList s).1 = CHROME_NO_PROXY ↔ s.chromedriver = true) ∧
    ((getProxyAvoidList s).1 = NO_PROXY ↔ s.chromedriver = false) ∧
    ((routeRequest reTest m path s).1 = true ↔
      ∃ r ∈ (getProxyAvoidList s).1, r.1 = m ∧ reTest r.2 path = true) := by
  have hne : NO_PROXY ≠ CHROME_NO_PROXY := by decide
  refine ⟨?_, ?_, ?_⟩
  · cases hc : s.chromedriver <;>
      simp [getProxyAvoidList, hnw, hc, hne, Ne.symm hne]
  · cases hc : s.chromedriver <;>
      simp [getProxyAvoidList, hnw, hc, hne, Ne.symm hne]
  · simp only [routeRequest, List.any_eq_true, Bool.and_eq_true, decide_eq_true_eq]


/-- A capability bundle with nothing set beyond the merged defaults. -/
def plainOpts : Opts where
  systemPort := none
  mjpegServerPort := none
  app := none
  appPackage := none
  appActivity := none
  browserName := none
  avd := none
  deviceName := none
  platformVersion := none
  orientation := none
  autoWebviewTimeout := none
  gpsEnabled := none
  uninstallOtherPackages := none
  otherApps := none
  mjpegScreenshotUrl := none
  androidCoverage := none
  androidCoverageEndIntent := none
  fullReset := false
  noReset := false
  fastReset := false
  skipUninstall := false
  noSign := false
  skipUnlock := false
  skipServerInstallation := false
  autoLaunch := true
  autoWebview := false
  disableWindowAnimation := false
  nativeWebScreenshot := false
  dontStopAppOnReset := false
  shouldTerminateApp := false
  reboot := false
  forceAppLaunch := false

/-- An environment in which every collaborator call succeeds, no local port
is busy, the device runs API level 30, and nothing optional is running. -/
def envAllOk : Env where
  busy := fun _ => false
  apiLevel := 30
  isEmulator := false
  animationOn := false
  webviewAvailable := true
  launchInfo := none
  mediaProjectionRunning := false
  processRunning := false
  appInstalled := false
  apkCertOk := true
  strictRemoveForward := false
  forwardPortOk := true
  removeForwardOk := true
  baseCreateOk := true
  configureAppOk := true
  appExists := true
  deviceInfoOk := true
  createAdbOk := true
  hiddenApiOk := true
  gpsOk := true
  launchInfoOk := true
  initDeviceOk := true
  installServerOk := true
  idleWhitelistOk := true
  animationCheckOk := true
  setAnimationOk := true
  uninstallOtherOk := true
  otherAppsOk := true
  signAppOk := true
  uninstallApkOk := true
  installApkOk := true
  resetAppOk := true
  serverStartOk := true
  deviceInfoUia2Ok := true
  unlockOk := true
  chromeSessionOk := true
  coverageStartOk := true
  startAppOk := true
  setOrientationOk := true
  deviceDetailsOk := true
  mjpegStartOk := true
  removeWsHandlersOk := true
  stopChromeProxiesOk := true
  serverDeleteOk := true
  stopRecordingOk := true
  stopMediaProjOk := true
  stopStreamingOk := true
  endCoverageOk := true
  broadcastOk := true
  forceStopOk := true
  stopLogcatOk := true
  setDefaultHiddenApiOk := true
  killEmulatorOk := true
  baseDeleteOk := true

theorem routeMatcher_table_selection_witness :
    (getProxyAvoidList (initialState plainOpts)).1 = NO_PROXY ↔
      (initialState plainOpts).chromedriver = false :=
  (routeMatcher_table_selection (fun _ _ => false) Method.get "/status"
    (initialState plainOpts) rfl).2.1

/-- C8: when the nativeWebScreenshot capability is set, the screenshot
no-proxy rule is appended to whichever table is active for the current
context before matching; the extension is driven only by the session-fixed
capability — a repeated call in the same session returns the same list, and
the avoid list installed for a request does not depend on the request. -/
theorem nativeWebScreenshot_extends_active_table
    (reTest : ReSrc → String → Bool) (m : Method) (path : String) (s : DriverState)
    (hnw : s.opts.nativeWebScreenshot = true) :
    (getProxyAvoidList s).1 =
      (if s.chromedriver then CHROME_NO_PROXY else NO_PROXY) ++
        [(Method.get, ⟨"^/session/[^/]+/screenshot"⟩)] ∧
    (getProxyAvoidList ((getProxyAvoidList s).2)).1 = (getProxyAvoidList s).1 ∧
    (routeRequest reTest m path s).2.jwpProxyAvoid = (getProxyAvoidList s).1 := by
  refine ⟨?_, ?_, ?_⟩
  · cases hc : s.chromedriver <;> simp [getProxyAvoidList, hnw, hc]
  · cases hc : s.chromedriver <;> simp [getProxyAvoidList, hnw, hc]
  · cases hc : s.chromedriver <;> simp [routeRequest, getProxyAvoidList, hnw, hc]

theorem nativeWebScreenshot_extends_active_table_witness :
    (getProxyAvoidList (initialState {plainOpts with nativeWebScreenshot := true})).1 =
      (if (initialState {plainOpts with nativeWebScreenshot := true}).chromedriver then
        CHROME_NO_PROXY else NO_PROXY) ++
        [(Method.get, ⟨"^/session/[^/]+/screenshot"⟩)] :=
  (nativeWebScreenshot_extends_active_table (fun _ _ => false) Method.get "/status"
    (initialState {plainOpts with nativeWebScreenshot := true}) rfl).1

/-- C4: when the caller supplied a systemPort capability and something is
already listening locally on that port, allocateSystemPort fails with a
port-busy error naming the port and creates no port forward. -/
theorem allocateSystemPort_callerPort_busy (env : Env) (s : DriverState) (p : Nat)
    (hp : s.systemPort = some p) (hb : env.busy p = true) :
    (allocateSystemPort env s).1 = Except.error (Err.portBusy p) ∧
    (allocateSystemPort env s).2.forwards = s.forwards := by
  simp [allocateSystemPort, bind_run, getS, hp, modifyS, forwardPort_run, hb]

theorem allocateSystemPort_callerPort_busy_witness :
    (allocateSystemPort {envAllOk with busy := fun q => q == 9000}
      (initialState {plainOpts with systemPort := some 9000})).1 =
      Except.error (Err.portBusy 9000) :=
  (allocateSystemPort_callerPort_busy {envAllOk with busy := fun q => q == 9000}
    (initialState {plainOpts with systemPort := some 9000}) 9000 rfl rfl).1

/-- With a working and tolerant bridge removal, releaseSystemPort never
raises: it is a no-op without a port or ADB handle, and otherwise removes
whatever forward is present. -/
theorem releaseSystemPort_ok (env : Env) (s : DriverState)
    (hstrict : env.strictRemoveForward = false) (hok : env.removeForwardOk = true) :
    (releaseSystemPort env s).1 = Except.ok () := by
  rcases hsp : s.systemPort with _ | p <;> cases hadb : s.adb <;>
    simp [releaseSystemPort, bind_run, getS, removePortForward, hsp, hadb, hok, hstrict,
      pure_run]
  split <;> simp

/-- The state with a caller-supplied port lease 8200 acquired, against a
bridge that rejects removal of a non-existent forward (as adb does). -/
def strictEnv : Env := {envAllOk with strictRemoveForward := true}

def leasedState : DriverState :=
  (allocateSystemPort strictEnv
    {initialState {plainOpts with systemPort := some 8200} with adb := true}).2

/-- C3 counterexample: after the lease is acquired, the first
releaseSystemPort succeeds but the second raises, because the driver never
clears systemPort and re-issues the bridge removal for a forward that no
longer exists. -/
theorem releaseSystemPort_twice_counterexample :
    (releaseSystemPort strictEnv leasedState).1 = Except.ok () ∧
    (releaseSystemPort strictEnv
      (releaseSystemPort strictEnv leasedState).2).1 =
      Except.error Err.removeAbsentForward := ⟨rfl, rfl⟩

/-- C3 amended: calling releaseSystemPort twice in a row produces no error
on the second call provided the device bridge tolerates removing a
non-existent forward; the second call is not a guarded no-op but a repeat
removal, so its outcome is exactly the bridge's. -/
theorem releaseSystemPort_twice_tolerant (env : Env) (s : DriverState)
    (hstrict : env.strictRemoveForward = false) (hok : env.removeForwardOk = true) :
    (releaseSystemPort env (releaseSystemPort env s).2).1 = Except.ok () :=
  releaseSystemPort_ok env (releaseSystemPort env s).2 hstrict hok

theorem releaseSystemPort_twice_tolerant_witness :
    (releaseSystemPort envAllOk
      (releaseSystemPort envAllOk
        (allocateSystemPort envAllOk
          {initialState {plainOpts with systemPort := some 8200} with adb := true}).2).2).1 =
      Except.ok () :=
  releaseSystemPort_twice_tolerant envAllOk
    (allocateSystemPort envAllOk
      {initialState {plainOpts with systemPort := some 8200} with adb := true}).2 rfl rfl

theorem scanRange_some (env : Env) :
    ∀ n a p, scanRange env a n = some p →
      a ≤ p ∧ p < a + n ∧ env.busy p = false ∧
      ∀ q, a ≤ q → q < p → env.busy q = true := by
  intro n
  induction n with
  | zero => intro a p h; simp [scanRange] at h
  | succ n ih =>
    intro a p h
    simp only [scanRange] at h
    cases hb : env.busy a with
    | false =>
      rw [hb] at h
      simp at h
      subst h
      exact ⟨Nat.le_refl a, by omega, hb, fun q hq hq2 => absurd (Nat.lt_of_le_of_lt hq hq2)
        (Nat.lt_irrefl a)⟩
    | true =>
      rw [hb] at h
      simp at h
      obtain ⟨h1, h2, h3, h4⟩ := ih (a + 1) p h
      refine ⟨by omega, by omega, h3, fun q hq hq2 => ?_⟩
      rcases Nat.eq_or_lt_of_le hq with rfl | hlt
      · exact hb
      · exact h4 q hlt hq2

theorem scanRange_none (env : Env) :
    ∀ n a, scanRange env a n = none →
      ∀ q, a ≤ q → q < a + n → env.busy q = true := by
  intro n
  induction n with
  | zero => intro a _ q hq hq2; omega
  | succ n ih =>
    intro a h q hq hq2
    simp only [scanRange] at h
    cases hb : env.busy a with
    | false => rw [hb] at h; simp at h
    | true =>
      rw [hb] at h
      simp at h
      rcases Nat.eq_or_lt_of_le hq with rfl | hlt
      · exact hb
      · exact ih (a + 1) h q hlt (by omega)

/-- C5: without a caller-supplied port, allocateSystemPort picks the first
port of the fixed 8200..8299 range with nothing locally listening, records
it as systemPort and forwards the device control port to it; when every
port of the range is busy it fails with the range-exhausted error. -/
theorem allocateSystemPort_scan (env : Env) (s : DriverState)
    (hsp : s.systemPort = none) (hadb : s.adb = true) (hfw : env.forwardPortOk = true) :
    (∀ p, findAPortNotInUse env 8200 8299 = some p →
      (allocateSystemPort env s).1 = Except.ok () ∧
      (allocateSystemPort env s).2.systemPort = some p ∧
      8200 ≤ p ∧ p ≤ 8299 ∧ env.busy p = false ∧
      (∀ q, 8200 ≤ q → q < p → env.busy q = true) ∧
      (allocateSystemPort env s).2.forwards = s.forwards ++ [(p, DEVICE_PORT)]) ∧
    (findAPortNotInUse env 8200 8299 = none →
      ((allocateSystemPort env s).1 = Except.error Err.portRangeExhausted ∧
       (allocateSystemPort env s).2.forwards = s.forwards ∧
       ∀ q, 8200 ≤ q → q ≤ 8299 → env.busy q = true)) := by
  constructor
  · intro p hfind
    have hfind2 : scanRange env 8200 100 = some p := hfind
    obtain ⟨h1, h2, h3, h4⟩ := scanRange_some env 100 8200 p hfind2
    simp [allocateSystemPort, bind_run, getS, hsp, DEVICE_PORT_RANGE, logEvent, modifyS,
      forwardPort_run, findAPortNotInUse, hfind2, h3, hadb, hfw]
    refine ⟨by omega, by omega, h4⟩
  · intro hfind
    have hfind2 : scanRange env 8200 100 = none := hfind
    have hall := scanRange_none env 100 8200 hfind2
    simp [allocateSystemPort, bind_run, getS, hsp, DEVICE_PORT_RANGE, logEvent, modifyS,
      findAPortNotInUse, hfind2, throwS]
    exact fun q hq1 hq2 => hall q hq1 (by omega)

theorem allocateSystemPort_scan_witness :
    (allocateSystemPort {envAllOk with busy := fun q => decide (q < 8203)}
      {initialState plainOpts with adb := true}).1 = Except.ok () ∧
    (allocateSystemPort {envAllOk with busy := fun q => decide (q < 8203)}
      {initialState plainOpts with adb := true}).2.systemPort = some 8203 ∧
    (allocateSystemPort {envAllOk with busy := fun q => decide (q < 8203)}
      {initialState plainOpts with adb := true}).2.forwards = [(8203, DEVICE_PORT)] := by
  have h := (allocateSystemPort_scan {envAllOk with busy := fun q => decide (q < 8203)}
    {initialState plainOpts with adb := true} rfl rfl rfl).1 8203 (by decide)
  exact ⟨h.1, h.2.1, h.2.2.2.2.2.2⟩

/-- The state fields controlling port bookkeeping: bridge forwards, the
recorded system port, and the ADB handle. -/
def Frame3 (s s1 : DriverState) : Prop :=
  s1.forwards = s.forwards ∧ s1.systemPort = s.systemPort ∧ s1.adb = s.adb

/-- Frame3 plus the fields the teardown sequence branches on. -/
def PortFrame (s s1 : DriverState) : Prop :=
  Frame3 s s1 ∧ s1.opts = s.opts ∧ s1.hasSystemPortInCaps = s.hasSystemPortInCaps ∧
  s1.mjpegStream = s.mjpegStream ∧ s1.wasWindowAnimationDisabled = s.wasWindowAnimationDisabled

theorem frame3_refl (s : DriverState) : Frame3 s s := ⟨rfl, rfl, rfl⟩

theorem frame3_trans {a b c : DriverState} (h1 : Frame3 a b) (h2 : Frame3 b c) :
    Frame3 a c :=
  ⟨h2.1.trans h1.1, h2.2.1.trans h1.2.1, h2.2.2.trans h1.2.2⟩

theorem portFrame_refl (s : DriverState) : PortFrame s s := ⟨frame3_refl s, rfl, rfl, rfl, rfl⟩

theorem portFrame_trans {a b c : DriverState} (h1 : PortFrame a b) (h2 : PortFrame b c) :
    PortFrame a c :=
  ⟨frame3_trans h1.1 h2.1, h2.2.1.trans h1.2.1, h2.2.2.1.trans h1.2.2.1,
   h2.2.2.2.1.trans h1.2.2.2.1, h2.2.2.2.2.trans h1.2.2.2.2⟩

/-- The step leaves the port-bookkeeping and teardown-branch fields intact
(on success and on failure alike). -/
def FramesP {α : Type} (m : StepM α) : Prop := ∀ s, PortFrame s (m s).2

/-- The step leaves forwards, systemPort and adb intact. -/
def Frames3 {α : Type} (m : StepM α) : Prop := ∀ s, Frame3 s (m s).2

/-- The step cannot raise. -/
def Succeeds {α : Type} (m : StepM α) : Prop := ∀ s, ∃ a, (m s).1 = Except.ok a

theorem framesP_frames3 {α : Type} {m : StepM α} (h : FramesP m) : Frames3 m :=
  fun s => (h s).1

theorem framesP_bind {α β : Type} {m : StepM α} {f : α → StepM β}
    (hm : FramesP m) (hf : ∀ a, FramesP (f a)) : FramesP (m >>= f) := by
  intro s
  rw [bind_run]
  rcases hx : m s with ⟨r, s1⟩
  have h1 : PortFrame s s1 := by have := hm s; rw [hx] at this; exact this
  cases r with
  | ok a => exact portFrame_trans h1 (hf a s1)
  | error e => exact h1

theorem frames3_bind {α β : Type} {m : StepM α} {f : α → StepM β}
    (hm : Frames3 m) (hf : ∀ a, Frames3 (f a)) : Frames3 (m >>= f) := by
  intro s
  rw [bind_run]
  rcases hx : m s with ⟨r, s1⟩
  have h1 : Frame3 s s1 := by have := hm s; rw [hx] at this; exact this
  cases r with
  | ok a => exact frame3_trans h1 (hf a s1)
  | error e => exact h1

theorem succeeds_bind {α β : Type} {m : StepM α} {f : α → StepM β}
    (hm : Succeeds m) (hf : ∀ a, Succeeds (f a)) : Succeeds (m >>= f) := by
  intro s
  rw [bind_run]
  rcases hx : m s with ⟨r, s1⟩
  obtain ⟨a, ha⟩ := hm s
  rw [hx] at ha
  cases r with
  | ok b => exact hf b s1
  | error e => simp at ha

theorem framesP_ite {α : Type} (c : Prop) [Decidable c] {a b : StepM α}
    (ha : FramesP a) (hb : FramesP b) : FramesP (if c then a else b) := by
  split <;> assumption

theorem frames3_ite {α : Type} (c : Prop) [Decidable c] {a b : StepM α}
    (ha : Frames3 a) (hb : Frames3 b) : Frames3 (if c then a else b) := by
  split <;> assumption

theorem succeeds_ite {α : Type} (c : Prop) [Decidable c] {a b : StepM α}
    (ha : Succeeds a) (hb : Succeeds b) : Succeeds (if c then a else b) := by
  split <;> assumption

theorem framesP_getS : FramesP getS := fun s => portFrame_refl s

theorem frames3_getS : Frames3 getS := fun s => frame3_refl s

theorem succeeds_getS : Succeeds getS := fun s => ⟨s, rfl⟩

theorem framesP_pure {α : Type} (a : α) : FramesP (pure a : StepM α) :=
  fun s => portFrame_refl s

theorem frames3_pure {α : Type} (a : α) : Frames3 (pure a : StepM α) :=
  fun s => frame3_refl s

theorem succeeds_pure {α : Type} (a : α) : Succeeds (pure a : StepM α) :=
  fun _ => ⟨a, rfl⟩

theorem framesP_throw {α : Type} (e : Err) : FramesP (throwS e : StepM α) :=
  fun s => portFrame_refl s

theorem frames3_throw {α : Type} (e : Err) : Frames3 (throwS e : StepM α) :=
  fun s => frame3_refl s

theorem framesP_log (ev : Event) : FramesP (logEvent ev) := by
  intro s; simp [logEvent, PortFrame, Frame3]

theorem frames3_log (ev : Event) : Frames3 (logEvent ev) := by
  intro s; simp [logEvent, Frame3]

theorem succeeds_log (ev : Event) : Succeeds (logEvent ev) := by
  intro s; exact ⟨(), rfl⟩

theorem framesP_externStep (f : Bool) (ev : Event) : FramesP (externStep f ev) := by
  intro s; simp [externStep, PortFrame, Frame3]

theorem frames3_externStep (f : Bool) (ev : Event) : Frames3 (externStep f ev) := by
  intro s; simp [externStep, Frame3]

theorem succeeds_externStep (ev : Event) : Succeeds (externStep true ev) := by
  intro s; exact ⟨(), rfl⟩

theorem attemptS_run {α : Type} (m : StepM α) (s : DriverState) :
    attemptS m s = (Except.ok (), (m s).2) := by
  unfold attemptS
  rcases hx : m s with ⟨r, s1⟩
  cases r <;> simp [hx]

theorem framesP_attempt {α : Type} {m : StepM α} (hm : FramesP m) :
    FramesP (attemptS m) := by
  intro s; rw [attemptS_run]; exact hm s

theorem frames3_attempt {α : Type} {m : StepM α} (hm : Frames3 m) :
    Frames3 (attemptS m) := by
  intro s; rw [attemptS_run]; exact hm s

theorem succeeds_attempt {α : Type} (m : StepM α) : Succeeds (attemptS m) := by
  intro s; rw [attemptS_run]; exact ⟨(), rfl⟩

theorem succeeds_modify (g : DriverState → DriverState) : Succeeds (modifyS g) :=
  fun _ => ⟨(), rfl⟩


theorem noControlForward_iff (s : DriverState) :
    noControlForward s = true ↔ ∀ f ∈ s.forwards, f.2 ≠ DEVICE_PORT := by
  simp [noControlForward, List.all_eq_true]

theorem controlForwardInv_iff (s : DriverState) :
    controlForwardInv s = true ↔
      ∀ f ∈ s.forwards, f.2 = DEVICE_PORT → s.systemPort = some f.1 ∧ s.adb = true := by
  simp only [controlForwardInv, List.all_eq_true, Bool.or_eq_true, Bool.and_eq_true,
    bne_iff_ne, beq_iff_eq, ne_eq]
  constructor
  · intro h f hf hdp
    rcases h f hf with h1 | h2
    · exact absurd hdp h1
    · exact ⟨h2.1, h2.2⟩
  · intro h f hf
    by_cases hdp : f.2 = DEVICE_PORT
    · exact Or.inr ⟨(h f hf hdp).1, (h f hf hdp).2⟩
    · exact Or.inl hdp

theorem ctlInv_frame3 {s s1 : DriverState} (hf : Frame3 s s1)
    (h : controlForwardInv s = true) : controlForwardInv s1 = true := by
  unfold controlForwardInv at h ⊢
  rw [hf.1, hf.2.1, hf.2.2]
  exact h

theorem noCtl_frame3 {s s1 : DriverState} (hf : Frame3 s s1)
    (h : noControlForward s = true) : noControlForward s1 = true := by
  unfold noControlForward at h ⊢
  rw [hf.1]
  exact h

theorem ctlInv_noadb {s : DriverState} (hadb : s.adb = false)
    (h : controlForwardInv s = true) : noControlForward s = true := by
  rw [controlForwardInv_iff] at h
  rw [noControlForward_iff]
  intro f hf hdp
  have := (h f hf hdp).2
  rw [hadb] at this
  exact Bool.false_ne_true this

theorem ctlInv_noport {s : DriverState} (hsp : s.systemPort = none)
    (h : controlForwardInv s = true) : noControlForward s = true := by
  rw [controlForwardInv_iff] at h
  rw [noControlForward_iff]
  intro f hf hdp
  have := (h f hf hdp).1
  rw [hsp] at this
  exact Option.noConfusion this

theorem removePortForward_preserves_noCtl (env : Env) (q : Nat) (s : DriverState)
    (h : noControlForward s = true) :
    noControlForward (removePortForward env q s).2 = true := by
  rw [noControlForward_iff] at h
  unfold removePortForward
  split
  · simpa [noControlForward_iff] using h
  · split
    · rw [noControlForward_iff]
      intro f hf
      simp only [List.mem_filter] at hf
      exact h f hf.1
    · split <;> simpa [noControlForward_iff] using h

theorem releaseSystemPort_clears (env : Env) (s : DriverState)
    (hok : env.removeForwardOk = true) (hinv : controlForwardInv s = true) :
    noControlForward (releaseSystemPort env s).2 = true := by
  rcases hsp : s.systemPort with _ | p
  · have hnc := ctlInv_noport hsp hinv
    cases hadb : s.adb <;>
      simp [releaseSystemPort, bind_run, getS, hsp, hadb, pure_run, hnc]
  · cases hadb : s.adb
    · have hnc := ctlInv_noadb hadb hinv
      simp [releaseSystemPort, bind_run, getS, hsp, hadb, pure_run, hnc]
    · have hstep : (releaseSystemPort env s).2 = (removePortForward env p s).2 := by
        simp [releaseSystemPort, bind_run, getS, hsp, hadb]
      rw [hstep]
      rw [controlForwardInv_iff] at hinv
      unfold removePortForward
      rw [hok]
      simp only [Bool.not_true, Bool.false_eq_true, if_false]
      split
      · rw [noControlForward_iff]
        intro f hf
        simp only [List.mem_filter, bne_iff_ne, ne_eq] at hf
        intro hdp
        have := (hinv f hf.1 hdp).1
        rw [hsp] at this
        exact hf.2 (by injection this with h2; exact h2.symm)
      · rename_i hnone
        simp only [List.any_eq_true, beq_iff_eq, not_exists] at hnone
        push_neg at hnone
        split <;>
        · rw [noControlForward_iff]
          intro f hf hdp
          have h1 := (hinv f hf hdp).1
          rw [hsp] at h1
          exact absurd h1.symm (by simpa using hnone f hf)

theorem releaseMjpeg_preserves_noCtl (env : Env) (s : DriverState)
    (h : noControlForward s = true) :
    noControlForward (releaseMjpegServerPort env s).2 = true := by
  unfold releaseMjpegServerPort
  rw [bind_run]
  simp only [getS]
  rcases hmp : s.opts.mjpegServerPort with _ | mp
  · simpa [hmp, pure_run] using h
  · simpa [hmp] using removePortForward_preserves_noCtl env mp s h

theorem serverDeleteIfActive_frames (env : Env) : FramesP (serverDeleteIfActive env) := by
  unfold serverDeleteIfActive
  exact framesP_bind framesP_getS fun a =>
    framesP_ite _ (framesP_attempt (framesP_externStep _ _)) (framesP_pure ())

theorem serverDeleteIfActive_succeeds (env : Env) : Succeeds (serverDeleteIfActive env) := by
  unfold serverDeleteIfActive
  exact succeeds_bind succeeds_getS fun a =>
    succeeds_ite _ (succeeds_attempt _) (succeeds_pure ())

theorem teardownServerPhase_frames (env : Env) : FramesP (teardownServerPhase env) := by
  unfold teardownServerPhase
  refine framesP_bind framesP_getS fun a => framesP_ite _ ?_ (framesP_pure ())
  refine framesP_bind (framesP_attempt ?_) fun _ => ?_
  · exact framesP_bind (framesP_externStep _ _)
      (fun _ => by intro s; simp [modifyS, PortFrame, Frame3])
  · refine framesP_bind (serverDeleteIfActive_frames env) fun _ => ?_
    intro s; simp [modifyS, PortFrame, Frame3]

theorem teardownServerPhase_succeeds (env : Env) : Succeeds (teardownServerPhase env) := by
  unfold teardownServerPhase
  refine succeeds_bind succeeds_getS fun a => succeeds_ite _ ?_ (succeeds_pure ())
  refine succeeds_bind (succeeds_attempt _) fun _ => ?_
  exact succeeds_bind (serverDeleteIfActive_succeeds env) fun _ => succeeds_modify _

theorem screenRecordingStopStep_frames (env : Env) : FramesP (screenRecordingStopStep env) := by
  unfold screenRecordingStopStep
  refine framesP_bind (framesP_attempt ?_) fun _ =>
    framesP_bind (framesP_attempt ?_) fun _ => framesP_attempt ?_
  · exact framesP_bind framesP_getS fun a =>
      framesP_ite _ (framesP_externStep _ _) (framesP_pure ())
  · exact framesP_bind (framesP_log _) fun _ =>
      framesP_ite _ (framesP_externStep _ _) (framesP_pure ())
  · exact framesP_bind framesP_getS fun a =>
      framesP_ite _ (framesP_externStep _ _) (framesP_pure ())

theorem screenRecordingStopStep_succeeds (env : Env) : Succeeds (screenRecordingStopStep env) := by
  unfold screenRecordingStopStep
  exact succeeds_bind (succeeds_attempt _) fun _ =>
    succeeds_bind (succeeds_attempt _) fun _ => succeeds_attempt _

theorem coverageEndStep_frames (env : Env) : FramesP (coverageEndStep env) := by
  unfold coverageEndStep
  refine framesP_bind framesP_getS fun a => framesP_ite _ ?_ (framesP_pure ())
  exact framesP_bind (framesP_externStep _ _) fun _ =>
    framesP_ite _ (framesP_externStep _ _) (framesP_pure ())

theorem coverageEndStep_succeeds (env : Env) (h1 : env.endCoverageOk = true)
    (h2 : env.broadcastOk = true) : Succeeds (coverageEndStep env) := by
  unfold coverageEndStep
  simp only [h1, h2]
  refine succeeds_bind succeeds_getS fun a => succeeds_ite _ ?_ (succeeds_pure ())
  exact succeeds_bind (succeeds_externStep _) fun _ =>
    succeeds_ite _ (succeeds_externStep _) (succeeds_pure ())

theorem forceStopIfNeeded_frames (env : Env) : FramesP (forceStopIfNeeded env) := by
  unfold forceStopIfNeeded
  exact framesP_bind framesP_getS fun a =>
    framesP_ite _ (framesP_attempt (framesP_externStep _ _)) (framesP_pure ())

theorem forceStopIfNeeded_succeeds (env : Env) : Succeeds (forceStopIfNeeded env) := by
  unfold forceStopIfNeeded
  exact succeeds_bind succeeds_getS fun a =>
    succeeds_ite _ (succeeds_attempt _) (succeeds_pure ())

theorem uninstallIfFullReset_frames (env : Env) : FramesP (uninstallIfFullReset env) := by
  unfold uninstallIfFullReset
  exact framesP_bind framesP_getS fun a =>
    framesP_ite _ (framesP_attempt (framesP_externStep _ _)) (framesP_pure ())

theorem uninstallIfFullReset_succeeds (env : Env) : Succeeds (uninstallIfFullReset env) := by
  unfold uninstallIfFullReset
  exact succeeds_bind succeeds_getS fun a =>
    succeeds_ite _ (succeeds_attempt _) (succeeds_pure ())

theorem restoreAnimationStep_frames (env : Env) : FramesP (restoreAnimationStep env) := by
  unfold restoreAnimationStep
  exact framesP_bind framesP_getS fun a =>
    framesP_ite _ (framesP_externStep _ _) (framesP_pure ())

theorem restoreAnimationStep_succeeds (env : Env) (h : env.setAnimationOk = true) :
    Succeeds (restoreAnimationStep env) := by
  unfold restoreAnimationStep
  simp only [h]
  exact succeeds_bind succeeds_getS fun a =>
    succeeds_ite _ (succeeds_externStep _) (succeeds_pure ())

theorem teardownAppStopPhase_frames (env : Env) : FramesP (teardownAppStopPhase env) := by
  unfold teardownAppStopPhase
  exact framesP_bind (screenRecordingStopStep_frames env) fun _ =>
    framesP_bind (coverageEndStep_frames env) fun _ =>
    framesP_bind (forceStopIfNeeded_frames env) fun _ =>
    framesP_bind (uninstallIfFullReset_frames env) fun _ =>
    framesP_bind (restoreAnimationStep_frames env) fun _ => framesP_externStep _ _

theorem teardownAppStopPhase_succeeds (env : Env) (h1 : env.endCoverageOk = true)
    (h2 : env.broadcastOk = true) (h3 : env.setAnimationOk = true)
    (h4 : env.stopLogcatOk = true) : Succeeds (teardownAppStopPhase env) := by
  unfold teardownAppStopPhase
  simp only [h4]
  exact succeeds_bind (screenRecordingStopStep_succeeds env) fun _ =>
    succeeds_bind (coverageEndStep_succeeds env h1 h2) fun _ =>
    succeeds_bind (forceStopIfNeeded_succeeds env) fun _ =>
    succeeds_bind (uninstallIfFullReset_succeeds env) fun _ =>
    succeeds_bind (restoreAnimationStep_succeeds env h3) fun _ => succeeds_externStep _

theorem hiddenApiRestoreStep_frames (env : Env) : FramesP (hiddenApiRestoreStep env) := by
  unfold hiddenApiRestoreStep
  exact framesP_bind (framesP_log _) fun _ =>
    framesP_ite _ (framesP_externStep _ _) (framesP_pure ())

theorem hiddenApiRestoreStep_succeeds (env : Env) (h : env.setDefaultHiddenApiOk = true) :
    Succeeds (hiddenApiRestoreStep env) := by
  unfold hiddenApiRestoreStep
  simp only [h]
  exact succeeds_bind (succeeds_log _) fun _ =>
    succeeds_ite _ (succeeds_externStep _) (succeeds_pure ())

theorem killEmulatorStep_frames (env : Env) : FramesP (killEmulatorStep env) := by
  unfold killEmulatorStep
  exact framesP_bind framesP_getS fun a =>
    framesP_ite _ (framesP_attempt (framesP_externStep _ _)) (framesP_pure ())

theorem killEmulatorStep_succeeds (env : Env) : Succeeds (killEmulatorStep env) := by
  unfold killEmulatorStep
  exact succeeds_bind succeeds_getS fun a =>
    succeeds_ite _ (succeeds_attempt _) (succeeds_pure ())

theorem teardownFinalAdbPhase_frames (env : Env) : FramesP (teardownFinalAdbPhase env) := by
  unfold teardownFinalAdbPhase
  exact framesP_bind (hiddenApiRestoreStep_frames env) fun _ => killEmulatorStep_frames env

theorem teardownFinalAdbPhase_succeeds (env : Env) (h : env.setDefaultHiddenApiOk = true) :
    Succeeds (teardownFinalAdbPhase env) := by
  unfold teardownFinalAdbPhase
  exact succeeds_bind (hiddenApiRestoreStep_succeeds env h) fun _ =>
    killEmulatorStep_succeeds env

theorem mjpegStreamStopStep_frames : FramesP mjpegStreamStopStep := by
  unfold mjpegStreamStopStep
  exact framesP_bind framesP_getS fun a =>
    framesP_ite _ (framesP_log _) (framesP_pure ())

theorem mjpegStreamStopStep_succeeds : Succeeds mjpegStreamStopStep := by
  unfold mjpegStreamStopStep
  exact succeeds_bind succeeds_getS fun a =>
    succeeds_ite _ (succeeds_log _) (succeeds_pure ())

theorem teardownPortReleasePhase_succeeds (env : Env) :
    Succeeds (teardownPortReleasePhase env) := by
  unfold teardownPortReleasePhase
  exact succeeds_bind (succeeds_attempt _) fun _ => succeeds_attempt _

theorem teardownPortReleasePhase_clears (env : Env) (s : DriverState)
    (hok : env.removeForwardOk = true) (hinv : controlForwardInv s = true) :
    noControlForward (teardownPortReleasePhase env s).2 = true := by
  unfold teardownPortReleasePhase
  rw [bind_run, attemptS_run]
  have h1 := releaseSystemPort_clears env s hok hinv
  simp only []
  rw [attemptS_run]
  exact releaseMjpeg_preserves_noCtl env _ h1

theorem teardownAdbPhase_spec (env : Env) (s : DriverState)
    (h2 : env.endCoverageOk = true) (h3 : env.broadcastOk = true)
    (h4 : env.setAnimationOk = true) (h5 : env.stopLogcatOk = true)
    (h6 : env.setDefaultHiddenApiOk = true) (h8 : env.removeForwardOk = true) :
    (teardownAdbPhase env s).1 = Except.ok () ∧
    (controlForwardInv s = true → noControlForward (teardownAdbPhase env s).2 = true) := by
  unfold teardownAdbPhase
  rw [bind_run]
  simp only [getS]
  cases hadb : s.adb
  · refine ⟨by simp [hadb, pure_run], fun hinv => ?_⟩
    simpa [hadb, pure_run] using ctlInv_noadb hadb hinv
  · simp only [hadb, if_true]
    rw [bind_run]
    rcases hap : teardownAppStopPhase env s with ⟨r1, s1⟩
    obtain ⟨a1, ha1⟩ := teardownAppStopPhase_succeeds env h2 h3 h4 h5 s
    rw [hap] at ha1
    simp only at ha1
    subst ha1
    dsimp only
    have hfr1 : PortFrame s s1 := by
      have := teardownAppStopPhase_frames env s; rw [hap] at this; exact this
    rw [bind_run]
    rcases hpr : teardownPortReleasePhase env s1 with ⟨r2, s2⟩
    obtain ⟨a2, ha2⟩ := teardownPortReleasePhase_succeeds env s1
    rw [hpr] at ha2
    simp only at ha2
    subst ha2
    dsimp only
    rcases hfin : teardownFinalAdbPhase env s2 with ⟨r3, s3⟩
    obtain ⟨a3, ha3⟩ := teardownFinalAdbPhase_succeeds env h6 s2
    rw [hfin] at ha3
    simp only at ha3
    subst ha3
    dsimp only
    have hfr3 : PortFrame s2 s3 := by
      have := teardownFinalAdbPhase_frames env s2; rw [hfin] at this; exact this
    refine ⟨by trivial, fun hinv => ?_⟩
    have hinv1 : controlForwardInv s1 = true := ctlInv_frame3 hfr1.1 hinv
    have hnc2 : noControlForward s2 = true := by
      have := teardownPortReleasePhase_clears env s1 h8 hinv1
      rw [hpr] at this; exact this
    exact noCtl_frame3 hfr3.1 hnc2

theorem deleteSession_spec (env : Env) (hb : TeardownBenign env) (s : DriverState) :
    (deleteSession env s).1 = Except.ok () ∧
    (controlForwardInv s = true → noControlForward (deleteSession env s).2 = true) := by
  obtain ⟨h1, h2, h3, h4, h5, h6, h7, h8⟩ := hb
  unfold deleteSession
  rw [bind_run]
  simp only [externStep, h1, if_true]
  rw [bind_run]
  rcases hts : teardownServerPhase env
      {s with events := s.events ++ [Event.removeAllSessionWebSocketHandlers]} with ⟨r1, s1⟩
  obtain ⟨a1, ha1⟩ := teardownServerPhase_succeeds env
    {s with events := s.events ++ [Event.removeAllSessionWebSocketHandlers]}
  rw [hts] at ha1
  simp only at ha1
  subst ha1
  dsimp only
  have hfr1 : PortFrame {s with events := s.events ++ [Event.removeAllSessionWebSocketHandlers]} s1 := by
    have := teardownServerPhase_frames env
      {s with events := s.events ++ [Event.removeAllSessionWebSocketHandlers]}
    rw [hts] at this; exact this
  rw [bind_run]
  simp only [modifyS]
  rw [bind_run]
  rcases hadb : teardownAdbPhase env {s1 with jwpProxyActive := false} with ⟨r2, s2⟩
  obtain ⟨hok2, hnc2⟩ := teardownAdbPhase_spec env {s1 with jwpProxyActive := false}
    h2 h3 h4 h5 h6 h8
  rw [hadb] at hok2 hnc2
  simp only at hok2
  subst hok2
  dsimp only
  rw [bind_run]
  rcases hmj : mjpegStreamStopStep s2 with ⟨r3, s3⟩
  obtain ⟨a3, ha3⟩ := mjpegStreamStopStep_succeeds s2
  rw [hmj] at ha3
  simp only at ha3
  subst ha3
  dsimp only
  have hfr3 : PortFrame s2 s3 := by
    have := mjpegStreamStopStep_frames s2; rw [hmj] at this; exact this
  simp only [externStep, h7, if_true]
  refine ⟨by trivial, fun hinv => ?_⟩
  have hinv1 : controlForwardInv {s1 with jwpProxyActive := false} = true := by
    have ha : controlForwardInv s1 = true := by
      refine ctlInv_frame3 hfr1.1 ?_
      unfold controlForwardInv at hinv ⊢
      exact hinv
    unfold controlForwardInv at ha ⊢
    exact ha
  have hnc : noControlForward s2 = true := hnc2 hinv1
  have hnc3 : noControlForward s3 = true := noCtl_frame3 hfr3.1 hnc
  unfold noControlForward at hnc3 ⊢
  exact hnc3

/-- The step preserves the control-forward bookkeeping invariant. -/
def KeepsInv {α : Type} (m : StepM α) : Prop :=
  ∀ s, controlForwardInv s = true → controlForwardInv (m s).2 = true

theorem keeps_of_frames3 {α : Type} {m : StepM α} (h : Frames3 m) : KeepsInv m :=
  fun s hs => ctlInv_frame3 (h s) hs

theorem keeps_bind {α β : Type} {m : StepM α} {f : α → StepM β}
    (hm : KeepsInv m) (hf : ∀ a, KeepsInv (f a)) : KeepsInv (m >>= f) := by
  intro s hs
  rw [bind_run]
  rcases hx : m s with ⟨r, s1⟩
  have h1 : controlForwardInv s1 = true := by
    have := hm s hs; rw [hx] at this; exact this
  cases r with
  | ok a => exact hf a s1 h1
  | error e => exact h1

theorem keeps_ite {α : Type} (c : Prop) [Decidable c] {a b : StepM α}
    (ha : KeepsInv a) (hb : KeepsInv b) : KeepsInv (if c then a else b) := by
  split <;> assumption

theorem noCtl_inv {s : DriverState} (h : noControlForward s = true) :
    controlForwardInv s = true := by
  rw [noControlForward_iff] at h
  rw [controlForwardInv_iff]
  intro f hf hdp
  exact absurd hdp (h f hf)

theorem keeps_forwardPort (env : Env) (q : Nat) (s : DriverState)
    (hsp : s.systemPort = some q) (hs : controlForwardInv s = true) :
    controlForwardInv (forwardPort env q s).2 = true := by
  rw [controlForwardInv_iff] at hs
  rw [forwardPort_run]
  cases hb : env.busy q
  · cases ha : s.adb
    · simp only [hb, Bool.false_eq_true, if_false, ha, Bool.not_false, if_true]
      rw [controlForwardInv_iff]
      intro f hf hdp
      have h2 := (hs f hf hdp).2
      rw [ha] at h2
      exact absurd h2 (by decide)
    · cases hf : env.forwardPortOk
      · simp only [hb, Bool.false_eq_true, if_false, ha, Bool.not_true, hf]
        rw [controlForwardInv_iff]
        intro f hf2 hdp
        exact ⟨(hs f hf2 hdp).1, rfl⟩
      · simp only [hb, Bool.false_eq_true, if_false, ha, Bool.not_true, hf, if_true]
        rw [controlForwardInv_iff]
        intro f hf2 hdp
        simp only [List.mem_append, List.mem_singleton] at hf2
        rcases hf2 with hf2 | hf2
        · exact ⟨(hs f hf2 hdp).1, rfl⟩
        · subst hf2
          exact ⟨hsp, rfl⟩
  · simp only [hb, if_true]
    rw [controlForwardInv_iff]
    intro f hf hdp
    exact hs f hf hdp

theorem keeps_allocateSystemPort (env : Env) : KeepsInv (allocateSystemPort env) := by
  intro s hs
  unfold allocateSystemPort
  rw [bind_run]
  simp only [getS]
  rcases hsp : s.systemPort with _ | p
  · dsimp only [hsp, DEVICE_PORT_RANGE]
    rw [bind_run]
    simp only [logEvent]
    rcases hfp : findAPortNotInUse env 8200 8299 with _ | p
    · simp only [hfp]
      exact hs
    · simp only [hfp]
      rw [bind_run]
      simp only [modifyS]
      have hnc : noControlForward s = true := ctlInv_noport hsp hs
      refine keeps_forwardPort env p _ rfl (noCtl_inv ?_)
      rw [noControlForward_iff] at hnc ⊢
      exact hnc
  · dsimp only [hsp]
    rw [bind_run]
    simp only [modifyS]
    refine keeps_forwardPort env p _ hsp ?_
    rw [controlForwardInv_iff] at hs ⊢
    exact hs

theorem keeps_allocateMjpegServerPort (env : Env) : KeepsInv (allocateMjpegServerPort env) := by
  intro s hs
  rw [controlForwardInv_iff] at hs
  unfold allocateMjpegServerPort
  rw [bind_run]
  simp only [getS]
  rcases hmp : s.opts.mjpegServerPort with _ | mp
  · simp only [hmp]
    rw [controlForwardInv_iff]
    exact hs
  · simp only [hmp]
    cases ha : s.adb
    · simp only [ha, Bool.not_false, if_true, throwS]
      rw [controlForwardInv_iff]
      exact hs
    · simp only [ha, Bool.not_true, Bool.false_eq_true, if_false]
      rw [bind_run]
      simp only [logEvent]
      cases hf : env.forwardPortOk
      · simp only [hf, Bool.false_eq_true, if_false, throwS]
        rw [controlForwardInv_iff]
        intro f hf2 hdp
        exact ⟨(hs f hf2 hdp).1, (hs f hf2 hdp).2⟩
      · simp only [hf, if_true, modifyS]
        rw [controlForwardInv_iff]
        intro f hf2 hdp
        simp only [List.mem_append, List.mem_singleton] at hf2
        rcases hf2 with hf2 | hf2
        · exact ⟨(hs f hf2 hdp).1, (hs f hf2 hdp).2⟩
        · subst hf2
          simp [DEVICE_PORT, MJPEG_SERVER_DEVICE_PORT] at hdp

theorem keeps_adb_modify : KeepsInv (modifyS (fun st => {st with adb := true})) := by
  intro s hs
  rw [controlForwardInv_iff] at hs
  simp only [modifyS]
  rw [controlForwardInv_iff]
  intro f hf hdp
  exact ⟨(hs f hf hdp).1, rfl⟩

theorem frames3_hiddenApiPolicyStep (env : Env) : Frames3 (hiddenApiPolicyStep env) := by
  unfold hiddenApiPolicyStep
  exact frames3_ite _ (frames3_externStep _ _) (frames3_pure ())

theorem frames3_gpsStep (env : Env) : Frames3 (gpsStep env) := by
  unfold gpsStep
  refine frames3_bind frames3_getS fun a => ?_
  rcases a.opts.gpsEnabled with _ | g
  · exact frames3_pure ()
  · exact frames3_ite _ (frames3_externStep _ _) (frames3_pure ())

theorem frames3_launchInfoMergeStep (env : Env) : Frames3 (launchInfoMergeStep env) := by
  unfold launchInfoMergeStep
  refine frames3_bind (frames3_externStep _ _) fun _ => ?_
  intro s
  simp only [modifyS]
  rcases env.launchInfo with _ | li <;> exact ⟨rfl, rfl, rfl⟩

theorem frames3_initUiAutomator2Server (env : Env) : Frames3 (initUiAutomator2Server env) := by
  unfold initUiAutomator2Server
  refine frames3_bind (fun s => ?_) fun _ => ?_
  · simp only [modifyS]; exact ⟨rfl, rfl, rfl⟩
  · refine frames3_bind frames3_getS fun a => frames3_ite _ (frames3_pure ()) ?_
    exact frames3_bind (frames3_externStep _ _) fun _ => frames3_attempt (frames3_externStep _ _)

theorem frames3_signAppIfNeeded (env : Env) (c : Bool) : Frames3 (signAppIfNeeded env c) := by
  unfold signAppIfNeeded
  exact frames3_ite _ (frames3_externStep _ _) (frames3_pure ())

theorem frames3_uninstallBeforeInstallStep (env : Env) :
    Frames3 (uninstallBeforeInstallStep env) := by
  unfold uninstallBeforeInstallStep
  exact frames3_bind frames3_getS fun a =>
    frames3_ite _ (frames3_externStep _ _) (frames3_pure ())

theorem frames3_installAppUnderTest (env : Env) : Frames3 (installAppUnderTest env) := by
  unfold installAppUnderTest
  refine frames3_bind frames3_getS fun a => ?_
  dsimp only
  have hjp : ∀ c : Bool, Frames3 (do
      signAppIfNeeded env c
      uninstallBeforeInstallStep env
      externStep env.installApkOk Event.installApk) := fun c =>
    frames3_bind (frames3_signAppIfNeeded env c) fun _ =>
      frames3_bind (frames3_uninstallBeforeInstallStep env) fun _ => frames3_externStep _ _
  refine frames3_ite _ ?_ ?_
  · exact frames3_bind (frames3_log _) fun _ =>
      frames3_bind (frames3_pure _) fun y => hjp y
  · exact frames3_bind (frames3_pure _) fun y => hjp y

theorem frames3_uninstallOtherPackagesStep (env : Env) :
    Frames3 (uninstallOtherPackagesStep env) := by
  unfold uninstallOtherPackagesStep
  exact frames3_bind frames3_getS fun a =>
    frames3_ite _ (frames3_externStep _ _) (frames3_pure ())

theorem frames3_installOtherApksStep (env : Env) : Frames3 (installOtherApksStep env) := by
  unfold installOtherApksStep
  exact frames3_bind frames3_getS fun a =>
    frames3_ite _ (frames3_externStep _ _) (frames3_pure ())

theorem frames3_initAUT (env : Env) : Frames3 (initAUT env) := by
  unfold initAUT
  refine frames3_bind (frames3_uninstallOtherPackagesStep env) fun _ => ?_
  refine frames3_bind (frames3_installOtherApksStep env) fun _ => ?_
  refine frames3_bind frames3_getS fun a => ?_
  rcases a.opts.app with _ | ap
  · refine frames3_ite _ (frames3_throw _) ?_
    exact frames3_ite _ (frames3_externStep _ _) (frames3_pure ())
  · dsimp only
    have hjp : ∀ c : Bool,
        Frames3 (if c = true then installAppUnderTest env else pure ()) := fun c =>
      frames3_ite _ (frames3_installAppUnderTest env) (frames3_pure ())
    refine frames3_ite _ ?_ ?_
    · exact frames3_bind (frames3_log _) fun _ =>
        frames3_bind (frames3_pure _) fun y => hjp y
    · exact frames3_bind (frames3_pure _) fun y => hjp y

theorem frames3_ensureAppStarts (env : Env) : Frames3 (ensureAppStarts env) := by
  unfold ensureAppStarts
  refine frames3_bind frames3_getS fun a => ?_
  refine frames3_ite _ (frames3_externStep _ _) ?_
  dsimp only
  have hjp : ∀ c : Bool,
      Frames3 (if c = true then (pure () : StepM Unit)
        else externStep env.startAppOk Event.startApp) := fun c =>
    frames3_ite _ (frames3_pure ()) (frames3_externStep _ _)
  refine frames3_ite _ ?_ ?_
  · exact frames3_bind (frames3_log _) fun _ =>
      frames3_bind (frames3_pure _) fun y => hjp y
  · exact frames3_bind (frames3_pure _) fun y => hjp y

theorem frames3_startChromeSession (env : Env) : Frames3 (startChromeSession env) := by
  unfold startChromeSession
  refine frames3_bind (frames3_externStep _ _) fun _ => ?_
  intro s; simp only [modifyS]; exact ⟨rfl, rfl, rfl⟩

theorem frames3_setContextAttempt (env : Env) : Frames3 (setContextAttempt env) := by
  unfold setContextAttempt
  refine frames3_bind (frames3_log _) fun _ => ?_
  refine frames3_ite _ (fun s => ?_) (frames3_throw _)
  simp only [modifyS]; exact ⟨rfl, rfl, rfl⟩

theorem frames3_retryIntervalGo (m : StepM Unit) (hm : Frames3 m) :
    ∀ n, Frames3 (retryIntervalGo m n) := by
  intro n
  induction n with
  | zero => exact frames3_throw _
  | succ k ih =>
    intro s
    simp only [retryIntervalGo]
    rcases hx : m s with ⟨r, s1⟩
    have h1 : Frame3 s s1 := by have := hm s; rw [hx] at this; exact this
    cases r with
    | ok a => simp only [hx]; exact h1
    | error e =>
      simp only [hx]
      by_cases hk : k = 0
      · simp only [hk, if_true]; exact h1
      · simp only [hk, if_false]
        exact frame3_trans h1 (ih s1)

theorem frames3_autoWebviewStep (env : Env) : Frames3 (autoWebviewStep env) := by
  unfold autoWebviewStep
  exact frames3_bind frames3_getS fun a =>
    frames3_ite _ (frames3_retryIntervalGo _ (frames3_setContextAttempt env) _)
      (frames3_pure ())

theorem frames3_unlockStep (env : Env) : Frames3 (unlockStep env) := by
  unfold unlockStep
  exact frames3_bind frames3_getS fun a =>
    frames3_ite _ (frames3_externStep _ _) (frames3_pure ())

theorem frames3_launchAppOrChrome (env : Env) : Frames3 (launchAppOrChrome env) := by
  unfold launchAppOrChrome
  refine frames3_bind frames3_getS fun a => ?_
  refine frames3_ite _ (frames3_startChromeSession env) ?_
  exact frames3_ite _ (frames3_ensureAppStarts env) (frames3_pure ())

theorem frames3_orientationStep (env : Env) : Frames3 (orientationStep env) := by
  unfold orientationStep
  refine frames3_bind frames3_getS fun a => ?_
  rcases a.opts.orientation with _ | o
  · exact frames3_pure ()
  · exact frames3_externStep _ _

theorem frames3_appLaunchPhase (env : Env) : Frames3 (appLaunchPhase env) := by
  unfold appLaunchPhase
  exact frames3_bind (frames3_initAUT env) fun _ =>
    frames3_bind (frames3_externStep _ _) fun _ =>
    frames3_bind (frames3_externStep _ _) fun _ =>
    frames3_bind (frames3_unlockStep env) fun _ =>
    frames3_bind (frames3_launchAppOrChrome env) fun _ => frames3_orientationStep env

theorem frames3_setAvdFromCapabilities : Frames3 setAvdFromCapabilities := by
  unfold setAvdFromCapabilities
  refine frames3_bind frames3_getS fun a => ?_
  refine frames3_ite _ (frames3_pure ()) ?_
  refine frames3_ite _ (frames3_throw _) ?_
  refine frames3_ite _ (frames3_throw _) ?_
  intro s; simp only [modifyS]; exact ⟨rfl, rfl, rfl⟩

theorem frames3_checkAppPresent (env : Env) : Frames3 (checkAppPresent env) := by
  unfold checkAppPresent
  exact frames3_bind (frames3_log _) fun _ =>
    frames3_ite _ (frames3_pure ()) (frames3_throw _)

theorem frames3_chromePkgStep : Frames3 chromePkgStep := by
  unfold chromePkgStep
  refine frames3_bind frames3_getS fun a => ?_
  refine frames3_ite _ (fun s => ?_) (frames3_pure ())
  simp only [modifyS]; exact ⟨rfl, rfl, rfl⟩

theorem frames3_rebootAvdStep : Frames3 rebootAvdStep := by
  unfold rebootAvdStep
  exact frames3_bind frames3_getS fun a =>
    frames3_ite _ frames3_setAvdFromCapabilities (frames3_pure ())

theorem frames3_configureAppStep (env : Env) : Frames3 (configureAppStep env) := by
  unfold configureAppStep
  refine frames3_bind frames3_getS fun a => ?_
  rcases a.opts.app with _ | ap
  · exact frames3_pure ()
  · exact frames3_bind (frames3_externStep _ _) fun _ => frames3_checkAppPresent env

theorem frames3_mjpegStreamStartStep (env : Env) : Frames3 (mjpegStreamStartStep env) := by
  unfold mjpegStreamStartStep
  refine frames3_bind frames3_getS fun a => ?_
  rcases a.opts.mjpegScreenshotUrl with _ | u
  · exact frames3_pure ()
  · refine frames3_bind (fun s => ?_) fun _ => frames3_externStep _ _
    simp only [modifyS]; exact ⟨rfl, rfl, rfl⟩

theorem keeps_devicePrepPhase (env : Env) : KeepsInv (devicePrepPhase env) := by
  unfold devicePrepPhase
  refine keeps_bind (keeps_of_frames3 (frames3_externStep _ _)) fun _ => ?_
  refine keeps_bind (keeps_of_frames3 (frames3_externStep _ _)) fun _ => ?_
  refine keeps_bind keeps_adb_modify fun _ => ?_
  refine keeps_bind (keeps_of_frames3 (frames3_log _)) fun _ => ?_
  refine keeps_ite _ (keeps_of_frames3 (frames3_throw _)) ?_
  refine keeps_bind (keeps_of_frames3 (frames3_hiddenApiPolicyStep env)) fun _ => ?_
  refine keeps_bind (keeps_of_frames3 (frames3_gpsStep env)) fun _ => ?_
  exact keeps_bind (keeps_of_frames3 (frames3_launchInfoMergeStep env)) fun _ =>
    keeps_of_frames3 (frames3_externStep _ _)

theorem keeps_serverSetupPhase (env : Env) : KeepsInv (serverSetupPhase env) := by
  unfold serverSetupPhase
  refine keeps_bind (keeps_allocateSystemPort env) fun _ => ?_
  refine keeps_bind (keeps_allocateMjpegServerPort env) fun _ => ?_
  refine keeps_bind (keeps_of_frames3 (frames3_initUiAutomator2Server env)) fun _ => ?_
  refine keeps_bind (keeps_of_frames3 frames3_getS) fun a => ?_
  refine keeps_ite _ ?_ (keeps_of_frames3 (frames3_pure ()))
  refine keeps_bind (keeps_of_frames3 (frames3_log _)) fun _ => ?_
  refine keeps_ite _ ?_ (keeps_of_frames3 (frames3_pure ()))
  refine keeps_bind (keeps_of_frames3 (frames3_externStep _ _)) fun _ => ?_
  refine keeps_ite _ ?_ (keeps_of_frames3 (frames3_pure ()))
  refine keeps_bind (keeps_of_frames3 (frames3_externStep _ _)) fun _ => ?_
  refine keeps_of_frames3 (fun s => ?_)
  simp only [modifyS]; exact ⟨rfl, rfl, rfl⟩

theorem keeps_startUiAutomator2Session (env : Env) :
    KeepsInv (startUiAutomator2Session env) := by
  unfold startUiAutomator2Session
  refine keeps_bind (keeps_devicePrepPhase env) fun _ => ?_
  refine keeps_bind (keeps_serverSetupPhase env) fun _ => ?_
  refine keeps_bind (keeps_of_frames3 (frames3_appLaunchPhase env)) fun _ => ?_
  refine keeps_bind (keeps_of_frames3 (frames3_autoWebviewStep env)) fun _ => ?_
  refine keeps_bind (keeps_of_frames3 (fun s => ?_)) fun _ =>
    keeps_of_frames3 (frames3_externStep _ _)
  simp only [modifyS]; exact ⟨rfl, rfl, rfl⟩

theorem keeps_createSessionInner (env : Env) : KeepsInv (createSessionInner env) := by
  unfold createSessionInner
  refine keeps_bind (keeps_of_frames3 (frames3_externStep _ _)) fun _ => ?_
  refine keeps_bind (keeps_of_frames3 frames3_chromePkgStep) fun _ => ?_
  refine keeps_bind (keeps_of_frames3 frames3_rebootAvdStep) fun _ => ?_
  refine keeps_bind (keeps_of_frames3 (frames3_configureAppStep env)) fun _ => ?_
  exact keeps_bind (keeps_startUiAutomator2Session env) fun _ =>
    keeps_of_frames3 (frames3_mjpegStreamStartStep env)

theorem createSessionInner_inv (env : Env) (o : Opts) :
    controlForwardInv (createSessionInner env (initialState o)).2 = true :=
  keeps_createSessionInner env (initialState o) rfl

/-- C1: for every capability bundle and collaborator behavior in which the
teardown-side bridge calls work, a createSession that fails in provisioning
catches the error, runs the full deleteSession — after which no forward of
the device control port remains in the bridge, whether or not one had been
established — and only then re-raises the very provisioning error to the
caller. -/
theorem createSession_failure_releases_port (env : Env) (o : Opts) (e : Err)
    (s1 : DriverState) (hb : TeardownBenign env)
    (h : createSession env o = (Except.error e, s1)) :
    noControlForward s1 = true ∧
    ∃ sMid, createSessionInner env (initialState o) = (Except.error e, sMid) ∧
      deleteSession env sMid = (Except.ok (), s1) := by
  unfold createSession at h
  rcases hi : createSessionInner env (initialState o) with ⟨r, sMid⟩
  rw [hi] at h
  cases r with
  | ok a => simp at h
  | error e0 =>
    obtain ⟨hok, hnc⟩ := deleteSession_spec env hb sMid
    rcases hd : deleteSession env sMid with ⟨rd, sd⟩
    rw [hd] at hok hnc
    simp only at hok
    subst hok
    dsimp only at h
    rw [hd] at h
    dsimp only at h
    obtain ⟨he, hs⟩ : e0 = e ∧ sd = s1 := by
      constructor
      · have := congrArg Prod.fst h
        simpa using this
      · have := congrArg Prod.snd h
        simpa using this
    subst he
    subst hs
    have hinv : controlForwardInv sMid = true := by
      have := createSessionInner_inv env o
      rw [hi] at this
      exact this
    exact ⟨hnc hinv, sMid, rfl, hd⟩

theorem createSession_failure_releases_port_witness :
    noControlForward (createSession {envAllOk with serverStartOk := false}
      {plainOpts with systemPort := some 9001}).2 = true :=
  (createSession_failure_releases_port {envAllOk with serverStartOk := false}
    {plainOpts with systemPort := some 9001} (Err.stepFailed Event.serverStartSession)
    (createSession {envAllOk with serverStartOk := false}
      {plainOpts with systemPort := some 9001}).2
    ⟨rfl, rfl, rfl, rfl, rfl, rfl, rfl, rfl⟩ (by rfl)).1

/-- C2 counterexample: deleteSession is not failure-proof — with a session
state holding an ADB handle and a leased port, a failing stopLogcat (an
unwrapped teardown sub-step that is not the base session-closing step)
escapes deleteSession, and the remaining sub-steps are skipped: the port
forward is still in place afterwards. -/
theorem deleteSession_unwrapped_failure_counterexample :
    (deleteSession {envAllOk with stopLogcatOk := false}
      {initialState {plainOpts with systemPort := some 8200} with
        adb := true, forwards := [(8200, DEVICE_PORT)]}).1 =
      Except.error (Err.stepFailed Event.stopLogcat) ∧
    (deleteSession {envAllOk with stopLogcatOk := false}
      {initialState {plainOpts with systemPort := some 8200} with
        adb := true, forwards := [(8200, DEVICE_PORT)]}).2.forwards =
      [(8200, DEVICE_PORT)] := ⟨rfl, rfl⟩

/-- C2 amended: from every session state, deleteSession returns
successfully provided its unwrapped sub-steps (websocket-handler removal,
coverage shutdown and broadcast, window-animation restore, logcat stop,
hidden-api-policy restore, forward removal, and the base session-closing
step) succeed; every other sub-step — chromedriver-proxy stop, device
server session end, the screen-capture stops, app force-stop and
uninstall, both port releases, emulator shutdown — is individually wrapped,
so those may all fail without failing the caller. -/
theorem deleteSession_wrapped_isolation (env : Env) (s : DriverState)
    (hb : TeardownBenign env) :
    (deleteSession env s).1 = Except.ok () :=
  (deleteSession_spec env hb s).1

/-- An environment in which every wrapped teardown sub-step fails while the
unwrapped ones work. -/
def wrappedFailEnv : Env :=
  {envAllOk with
    stopChromeProxiesOk := false
    serverDeleteOk := false
    stopRecordingOk := false
    stopMediaProjOk := false
    stopStreamingOk := false
    forceStopOk := false
    uninstallApkOk := false
    killEmulatorOk := false
    strictRemoveForward := true
    mediaProjectionRunning := true}

/-- A fully provisioned session state exercising every teardown branch. -/
def fullSessionState : DriverState :=
  {initialState {plainOpts with
      appPackage := some "app.pkg"
      fullReset := true
      reboot := true
      systemPort := some 8200} with
    adb := true
    uiautomator2 := true
    jwpProxyActive := true
    mjpegStream := true
    wasWindowAnimationDisabled := true
    screenRecordingProps := true
    screenStreamingProps := true
    forwards := [(8200, DEVICE_PORT)]}

theorem deleteSession_wrapped_isolation_witness :
    (deleteSession wrappedFailEnv fullSessionState).1 = Except.ok () :=
  deleteSession_wrapped_isolation _ _ ⟨rfl, rfl, rfl, rfl, rfl, rfl, rfl, rfl⟩

/-- The capability bundle of the fullReset scenario: fullReset requested,
no app artifact, a caller-supplied free port, and a free slot for the
gpsEnabled capability. -/
def fullResetNoAppOpts (gps : Option Bool) : Opts :=
  {plainOpts with fullReset := true, systemPort := some 9000, gpsEnabled := gps}

/-- The environment of the fullReset scenario; the Doze-whitelist outcome
is left free. -/
def c6Env (idleOk : Bool) : Env := {envAllOk with idleWhitelistOk := idleOk}

/-- C6 counterexample: a session start with the full-reset policy and no
app artifact does reach the device bridge before failing — the failed run's
trace contains the ADB API-level query, the control-port forward and the
server APK install, all performed before the fullReset error raised in
initAUT. -/
theorem fullReset_noApp_not_failfast_counterexample :
    (startUiAutomator2Session (c6Env true)
      (initialState (fullResetNoAppOpts none))).1 = Except.error Err.fullResetNeedsApp ∧
    ((startUiAutomator2Session (c6Env true)
      (initialState (fullResetNoAppOpts none))).2.events.contains Event.getApiLevel) = true ∧
    ((startUiAutomator2Session (c6Env true)
      (initialState (fullResetNoAppOpts none))).2.events.contains
        (Event.forwardPort 9000 DEVICE_PORT)) = true ∧
    ((startUiAutomator2Session (c6Env true)
      (initialState (fullResetNoAppOpts none))).2.events.contains
        Event.installServerApk) = true :=
  ⟨rfl, rfl, rfl, rfl⟩

/-- C6 amended: with the full-reset policy set and no application artifact,
session start fails with the fullReset-requires-app error raised during app
preparation (initAUT) — but only after device-bridge interaction: the ADB
API-level query, the control-port forward and the server APK install are
already in the trace of the failed start.  This holds whatever the
Doze-whitelist outcome and the gpsEnabled capability. -/
theorem fullReset_noApp_fails_after_device_calls (idleOk : Bool) (gps : Option Bool) :
    (startUiAutomator2Session (c6Env idleOk)
      (initialState (fullResetNoAppOpts gps))).1 = Except.error Err.fullResetNeedsApp ∧
    ((startUiAutomator2Session (c6Env idleOk)
      (initialState (fullResetNoAppOpts gps))).2.events.contains Event.getApiLevel) = true ∧
    ((startUiAutomator2Session (c6Env idleOk)
      (initialState (fullResetNoAppOpts gps))).2.events.contains
        (Event.forwardPort 9000 DEVICE_PORT)) = true := by
  cases idleOk <;> rcases gps with _ | g <;> exact ⟨rfl, rfl, rfl⟩

/-- The capability bundle of the auto-webview scenario: the policy on, a
2000 ms timeout, and a caller-supplied free port. -/
def autoWebviewOpts : Opts :=
  {plainOpts with
    autoWebview := true
    autoWebviewTimeout := some 2000
    systemPort := some 9001}

/-- The environment of the auto-webview scenario: the target webview never
becomes available; the Doze-whitelist outcome is left free. -/
def c9Env (idleOk : Bool) : Env :=
  {envAllOk with webviewAvailable := false, idleWhitelistOk := idleOk}

/-- The session state after the device-preparation phase of the
auto-webview scenario. -/
def c9State1 : DriverState :=
  {initialState autoWebviewOpts with
    adb := true
    events := [Event.getDeviceInfoFromCaps, Event.createADB, Event.getApiLevel,
      Event.setHiddenApiPolicy, Event.getLaunchInfo, Event.initDevice]}

/-- The session state after the server-setup phase of the auto-webview
scenario. -/
def c9State2 : DriverState :=
  {c9State1 with
    hasSystemPortInCaps := true
    uiautomator2 := true
    forwards := [(9001, DEVICE_PORT)]
    events := c9State1.events ++ [Event.checkPortStatus 9001,
      Event.forwardPort 9001 DEVICE_PORT, Event.installServerApk,
      Event.addToDeviceIdleWhitelist]}

/-- The session state right before the auto-webview poll. -/
def c9State3 : DriverState :=
  {c9State2 with
    events := c9State2.events ++ [Event.serverStartSession,
      Event.getDeviceInfoFromUia2, Event.unlock]}

/-- C9: with the auto-webview policy, a 2000 ms timeout and the fixed
500 ms interval, a target context that never becomes available makes
session start fail with the setContext failure, after exactly
2000/500 = 4 setContext polling attempts (whatever the Doze-whitelist
outcome). -/
theorem autoWebview_timeout_four_attempts (idleOk : Bool) :
    (startUiAutomator2Session (c9Env idleOk) (initialState autoWebviewOpts)).1 =
      Except.error (Err.stepFailed Event.setContext) ∧
    ((startUiAutomator2Session (c9Env idleOk)
      (initialState autoWebviewOpts)).2.events.count Event.setContext) = 4 := by
  have h1 : devicePrepPhase (c9Env idleOk) (initialState autoWebviewOpts) =
      (Except.ok (), c9State1) := by cases idleOk <;> rfl
  have h2 : serverSetupPhase (c9Env idleOk) c9State1 = (Except.ok (), c9State2) := by
    cases idleOk <;> rfl
  have h3 : appLaunchPhase (c9Env idleOk) c9State2 = (Except.ok (), c9State3) := by
    cases idleOk <;> rfl
  have h4 : autoWebviewStep (c9Env idleOk) c9State3 =
      (Except.error (Err.stepFailed Event.setContext),
       {c9State3 with events := c9State3.events ++ [Event.setContext, Event.setContext,
         Event.setContext, Event.setContext]}) := by cases idleOk <;> rfl
  unfold startUiAutomator2Session
  rw [bind_run, h1]
  dsimp only
  rw [bind_run, h2]
  dsimp only
  rw [bind_run, h3]
  dsimp only
  rw [bind_run, h4]
  dsimp only
  exact ⟨rfl, by rfl⟩
